import Mathlib

/-
Verification development for the `logene-voice-input` ASR sidecar
(`python/asr_server.py`, `python/inference.py`, `python/model_cache.py`,
`python/model_factory.py`, `python/protocol.py`).

The Python sources are shallowly embedded: pure functions become Lean
functions over explicit state; filesystem access, the model registry
downloader and the opaque inference backends are passed in as oracle
functions; raised exceptions become `Except` values; Python floats are
modelled as exact rationals; Python byte strings as `List ℕ` (byte values).
-/

namespace Py

/-- Model of the Python values the normalization code can receive:
`None`, strings, ints, floats, bools, lists, tuples and dicts
(dicts as association lists in insertion order, keys unique). -/
inductive PyVal where
  | pyNone
  | pyStr (s : String)
  | pyInt (n : Int)
  | pyFloat (q : ℚ)
  | pyBool (b : Bool)
  | pyList (items : List PyVal)
  | pyTuple (items : List PyVal)
  | pyDict (entries : List (String × PyVal))
deriving Repr

/-- Model of a Python exception: a type name, a message, and an optional
`raise ... from e` cause chain. -/
inductive PyExc where
  | base (typeName : String) (msg : String)
  | causedBy (typeName : String) (msg : String) (cause : PyExc)
deriving Repr, DecidableEq

def PyExc.typeName : PyExc → String
  | .base t _ => t
  | .causedBy t _ _ => t

def PyExc.message : PyExc → String
  | .base _ m => m
  | .causedBy _ m _ => m

/-- `isinstance(value, str)`. -/
def isStrVal : PyVal → Bool
  | .pyStr _ => true
  | _ => false

/-- `isinstance(node, (int, float))` with the value it denotes as a float
(Python `bool` is a subclass of `int`, hence also numeric). -/
def numVal : PyVal → Option ℚ
  | .pyInt n => some (n : ℚ)
  | .pyFloat q => some q
  | .pyBool b => some (if b then 1 else 0)
  | _ => none

/-- `key in value` plus `value.get(key)` on a dict. -/
def findKey : List (String × PyVal) → String → Option PyVal
  | [], _ => none
  | (k, v) :: rest, key => if k = key then some v else findKey rest key

/-- Python `str(...)` on an int. -/
def pyStrOfInt (n : Int) : String := toString n

/-- Python `str(...)` on a bool. -/
def pyStrOfBool (b : Bool) : String := if b then "True" else "False"

/-- Python `str(...)` on a float.  The exact numeral rendering Python uses is
abstracted to a fixed computable rendering; every embedded function calls this
same rendering, mirroring that every copy of the source calls the same builtin. -/
def pyStrOfFloat (q : ℚ) : String := toString q

/-- Python `s.strip()` (whitespace as recognized by `Char.isWhitespace`):
drop whitespace from both ends. -/
def pyStrip (s : String) : String :=
  String.mk (((s.data.dropWhile Char.isWhitespace).reverse.dropWhile Char.isWhitespace).reverse)

/-- The splitting loop of Python `line.split()`: accumulate the current token
(reversed) and emit it at each whitespace run; no empty tokens are produced. -/
def splitWsAux : List Char → List Char → List String
  | [], acc => if acc.isEmpty then [] else [String.mk acc.reverse]
  | c :: rest, acc =>
    if c.isWhitespace then
      (if acc.isEmpty then splitWsAux rest [] else String.mk acc.reverse :: splitWsAux rest [])
    else splitWsAux rest (c :: acc)

/-- Python `line.split()` with no argument: split on whitespace runs,
dropping empty tokens. -/
def pySplitWs (s : String) : List String := splitWsAux s.data []

/-- The splitting loop of `splitlines`, on the newline character. -/
def splitLinesAux : List Char → List Char → List String
  | [], acc => [String.mk acc.reverse]
  | c :: rest, acc =>
    if c = '\n' then String.mk acc.reverse :: splitLinesAux rest []
    else splitLinesAux rest (c :: acc)

/-- Python `s.splitlines()`, modelled for newline-separated strings.
(A trailing `"\n"` produces a final empty line here that `splitlines` omits;
all loops over the result skip empty lines, so this difference is inert.) -/
def pySplitlines (s : String) : List String := splitLinesAux s.data []

/-- Python `s.replace(".", "", 1)`: remove the first `"."` only. -/
def removeFirstDotAux : List Char → List Char
  | [] => []
  | c :: rest => if c = '.' then rest else c :: removeFirstDotAux rest

/-- Python `s.replace(".", "", 1)` on a string. -/
def removeFirstDot (s : String) : String := String.mk (removeFirstDotAux s.data)

/-- Python `s.isdigit()` (restricted to ASCII digits): non-empty and all digits. -/
def isPyDigit (s : String) : Bool := !s.data.isEmpty && s.data.all Char.isDigit

/-- Python `" ".join(words)`. -/
def pyJoinSpace : List String → String
  | [] => ""
  | [w] => w
  | w :: rest => w ++ " " ++ pyJoinSpace rest

/-- Python slice `samples[start:stop]` for `0 ≤ start`, `stop ≤ len`. -/
def pySlice (samples : List ℚ) (start stop : ℤ) : List ℚ :=
  (samples.drop start.toNat).take (stop - start).toNat

/-- Little-endian signed 16-bit decode of a byte list
(`np.frombuffer(pcm, dtype=np.int16)`), ignoring a trailing odd byte
(callers reject odd-length buffers separately). -/
def bytePairsToInt16 : List ℕ → List ℤ
  | lo :: hi :: rest =>
    (let v := (lo % 256) + 256 * (hi % 256)
     if 32768 ≤ v then (v : ℤ) - 65536 else (v : ℤ)) :: bytePairsToInt16 rest
  | _ => []

/-- `len(node) == 2 and isinstance(node[0], (int, float)) and isinstance(node[1], (int, float))`:
the two-element numeric boundary-pair test of `_extract_vad_pairs`. -/
def isNumPair (items : List PyVal) : Option (ℚ × ℚ) :=
  match items with
  | [a, b] =>
    match numVal a, numVal b with
    | some x, some y => some (x, y)
    | _, _ => none
  | _ => none

/-- `_extract_vad_pairs` (identical in `asr_server.py` and `inference.py`):
recursively extract every two-element numeric sub-sequence as a boundary
pair, in traversal order. -/
def extract_vad_pairs (v : PyVal) : List (ℚ × ℚ) :=
  match v with
  | .pyList items =>
    (match isNumPair items with
     | some p => [p]
     | none => (items.attach.map (fun x => extract_vad_pairs x.1)).flatten)
  | .pyTuple items =>
    (match isNumPair items with
     | some p => [p]
     | none => (items.attach.map (fun x => extract_vad_pairs x.1)).flatten)
  | _ => []
termination_by sizeOf v
decreasing_by
  · have hm := List.sizeOf_lt_of_mem x.2
    simp only [PyVal.pyList.sizeOf_spec]
    omega
  · have hm := List.sizeOf_lt_of_mem x.2
    simp only [PyVal.pyTuple.sizeOf_spec]
    omega

/-- The ASR backends return result lists whose items are either plain values
or decorated objects exposing a `.text` attribute (`hasattr(item, "text")`). -/
inductive AsrItem where
  | plain (v : PyVal)
  | withTextAttr (text : PyVal)

end Py

namespace VadSeg

/-- Python `int(x)`: truncation toward zero. -/
def pyTrunc (q : ℚ) : ℤ := if 0 ≤ q then ⌊q⌋ else ⌈q⌉

/-- Python `round(x)` to an integer: round half to even. -/
def pyRound (q : ℚ) : ℤ :=
  let f : ℤ := ⌊q⌋
  let r : ℚ := q - f
  if r < 1/2 then f
  else if 1/2 < r then f + 1
  else if f % 2 = 0 then f else f + 1

/-- `key = (int(round(float(start_ms))), int(round(float(end_ms))))`. -/
def vadKey (p : ℚ × ℚ) : ℤ × ℤ := (pyRound p.1, pyRound p.2)

/-- The dedup loop of `split_segments_by_vad`: keep the first pair for each
rounded-millisecond key, preserving encounter order (`seen` holds the keys
seen so far). -/
def dedupPairs : List (ℚ × ℚ) → List (ℤ × ℤ) → List (ℚ × ℚ)
  | [], _ => []
  | p :: rest, seen =>
    if vadKey p ∈ seen then dedupPairs rest seen
    else p :: dedupPairs rest (vadKey p :: seen)

/-- The sort key `lambda item: (item[0], item[1])`: lexicographic order. -/
def lexLe (a b : ℚ × ℚ) : Prop := a.1 < b.1 ∨ (a.1 = b.1 ∧ a.2 ≤ b.2)

instance : DecidableRel lexLe := fun a b => by unfold lexLe; infer_instance

instance : IsTotal (ℚ × ℚ) lexLe where
  total a b := by
    unfold lexLe
    rcases lt_trichotomy a.1 b.1 with h | h | h
    · exact Or.inl (Or.inl h)
    · rcases le_total a.2 b.2 with h2 | h2
      · exact Or.inl (Or.inr ⟨h, h2⟩)
      · exact Or.inr (Or.inr ⟨h.symm, h2⟩)
    · exact Or.inr (Or.inl h)

instance : IsTrans (ℚ × ℚ) lexLe where
  trans a b c hab hbc := by
    unfold lexLe at *
    rcases hab with h1 | ⟨e1, h1⟩
    · rcases hbc with h2 | ⟨e2, h2⟩
      · exact Or.inl (h1.trans h2)
      · exact Or.inl (e2 ▸ h1)
    · rcases hbc with h2 | ⟨e2, h2⟩
      · exact Or.inl (e1 ▸ h2)
      · exact Or.inr ⟨e1.trans e2, h1.trans h2⟩

/-- `deduped.sort(key=lambda item: (item[0], item[1]))`.  Python's sort is
stable, but after deduplication no two pairs are equal, so any sort by this
order yields the same list. -/
def sortPairs (l : List (ℚ × ℚ)) : List (ℚ × ℚ) := List.insertionSort lexLe l

/-- One iteration of the clamp/filter loop: `start = max(0, int(start_ms * 16))`,
`end = min(total, int(end_ms * 16))`, dropping ranges with `end <= start`
or `end - start < 320`.  Returns the surviving sample range. -/
def toRange (total : ℕ) (p : ℚ × ℚ) : Option (ℤ × ℤ) :=
  let start : ℤ := max 0 (pyTrunc (p.1 * 16))
  let stop : ℤ := min (total : ℤ) (pyTrunc (p.2 * 16))
  if stop ≤ start then none
  else if stop - start < 320 then none
  else some (start, stop)

/-- The `segmented` list of `split_segments_by_vad`, at the level of sample
ranges (a surviving `(start, stop)` denotes the slice `samples[start:stop]`). -/
def segRanges (total : ℕ) (l : List (ℚ × ℚ)) : List (ℤ × ℤ) := l.filterMap (toRange total)

/-- Composition of the dedup + sort + clamp/filter stages of
`split_segments_by_vad` (identical in `asr_server.py` lines 507-544 and
`inference.py` lines 148-184), for a waveform of `total` samples. -/
def splitRanges (total : ℕ) (pairs : List (ℚ × ℚ)) : List (ℤ × ℤ) :=
  segRanges total (sortPairs (dedupPairs pairs []))

/-- The surviving segments are pairwise non-overlapping, in output order. -/
def rangesDisjoint (l : List (ℤ × ℤ)) : Prop :=
  l.Pairwise (fun a b => a.2 ≤ b.1 ∨ b.2 ≤ a.1)

/-- Start positions strictly increasing in output order. -/
def startsStrictMono (l : List (ℤ × ℤ)) : Prop := l.Pairwise (fun a b => a.1 < b.1)

/-- Two boundary pairs, read as millisecond intervals, do not overlap. -/
def msDisjoint (p q : ℚ × ℚ) : Prop := p.2 ≤ q.1 ∨ q.2 ≤ p.1

/-- Two boundary pairs are either the same pair (a duplicate emission of the
same boundary, which deduplication removes) or non-overlapping millisecond
intervals. -/
def msEqOrDisjoint (p q : ℚ × ℚ) : Prop := p = q ∨ msDisjoint p q

instance : DecidablePred rangesDisjoint := fun l => by unfold rangesDisjoint; infer_instance
instance : DecidablePred startsStrictMono := fun l => by unfold startsStrictMono; infer_instance
instance : DecidableRel msDisjoint := fun p q => by unfold msDisjoint; infer_instance
instance : DecidableRel msEqOrDisjoint := fun p q => by
  unfold msEqOrDisjoint msDisjoint; infer_instance

end VadSeg

namespace ModelCache

/-
Embeddings of `model_cache.py`.  `asr_server.py` contains line-for-line
identical copies of `resolve_model_id`, `get_model_cache_path`,
`is_model_cached`, `validate_onnx_files`, `get_missing_onnx_files`,
`resolve_model_dir`, `adapt_contextual_quant_model_dir`,
`build_dependencies` and `inspect_dependency`; these definitions embed both
copies at once.  Filesystem state is an oracle.
-/

/-- Filesystem oracle: `os.path.isdir`, `os.path.exists`, and whether
`os.walk` finds at least one file anywhere under a directory. -/
structure FS where
  isdir : String → Bool
  fileExists : String → Bool
  walkHasFiles : String → Bool

/-- `os.path.join` with POSIX separator (`os.sep = "/"`; on this separator
`model_id.replace("/", os.sep)` is the identity). -/
def pathJoin (a b : String) : String := a ++ "/" ++ b

/-- The static `funasr_map` alias table of `resolve_model_id`. -/
def funasrMap : List (String × String) :=
  [("paraformer-zh",
    "iic/speech_paraformer-large-vad-punc_asr_nat-zh-cn-16k-common-vocab8404-pytorch"),
   ("ct-punc", "iic/punc_ct-transformer_zh-cn-common-vocab272727-pytorch")]

/-- `resolve_model_id`: alias lookup, unknown names pass through. -/
def resolve_model_id (model_name : String) : String :=
  match funasrMap.lookup model_name with
  | some v => v
  | none => model_name

/-- `os.path.join(os.path.expanduser("~"), ".cache", "modelscope", "hub", "models")`,
with the user home directory modelled as the abstract constant `"~"`. -/
def cacheRoot : String :=
  pathJoin (pathJoin (pathJoin (pathJoin "~" ".cache") "modelscope") "hub") "models"

/-- `get_model_cache_path`. -/
def get_model_cache_path (model_id : String) : String := pathJoin cacheRoot model_id

/-- `is_model_cached`: the cache directory exists and `os.walk` finds a file. -/
def is_model_cached (fs : FS) (model_id : String) : Bool :=
  fs.isdir (get_model_cache_path model_id) && fs.walkHasFiles (get_model_cache_path model_id)

/-- `get_missing_onnx_files` (identical in `model_cache.py` lines 49-67 and
`asr_server.py` lines 103-121). -/
def get_missing_onnx_files (fs : FS) (model_dir backend : String) (quantize : Bool) :
    List String :=
  let missingPrimary :=
    if quantize then
      if !(fs.fileExists (pathJoin model_dir "model_quant.onnx")) then ["model_quant.onnx"]
      else []
    else
      if !(fs.fileExists (pathJoin model_dir "model.onnx")) then ["model.onnx"]
      else []
  let missingSecondary :=
    if backend = "funasr_onnx_contextual" then
      if quantize then
        let has_quant_eb := fs.fileExists (pathJoin model_dir "model_eb_quant.onnx")
        let has_plain_eb := fs.fileExists (pathJoin model_dir "model_eb.onnx")
        if !(has_quant_eb || has_plain_eb) then ["model_eb_quant.onnx|model_eb.onnx"]
        else []
      else
        if !(fs.fileExists (pathJoin model_dir "model_eb.onnx")) then ["model_eb.onnx"]
        else []
    else []
  missingPrimary ++ missingSecondary

/-- `", ".join(missing)`. -/
def commaJoin (l : List String) : String := String.intercalate ", " l

/-- `validate_onnx_files`: raises `RuntimeError` when any file is missing. -/
def validate_onnx_files (fs : FS) (model_dir backend : String) (quantize : Bool) :
    Except Py.PyExc Unit :=
  let missing := get_missing_onnx_files fs model_dir backend quantize
  if missing ≠ [] then
    .error (.base "RuntimeError"
      ("ONNX 模型文件缺失: " ++ commaJoin missing ++ "。请确认模型仓库包含完整 ONNX 文件。"))
  else .ok ()

/-- `resolve_model_dir`: first candidate cache directory that exists, else the
raw model name. -/
def resolve_model_dir (fs : FS) (model_name : String) : String :=
  let resolved := resolve_model_id model_name
  let candidates := if model_name ≠ resolved then [resolved, model_name] else [resolved]
  match candidates.find? (fun c => fs.isdir (get_model_cache_path c)) with
  | some c => get_model_cache_path c
  | none => model_name

/-- `adapt_contextual_quant_model_dir`.  `tempfile.mkdtemp` is the oracle
`mkdtemp`; the `_copy_or_link` population of the compat directory is an
on-disk side effect outside the Runtime Model State and is not modelled. -/
def adapt_contextual_quant_model_dir (fs : FS) (mkdtemp : String)
    (model_dir : String) (quantize : Bool) : String × Bool :=
  if !quantize then (model_dir, false)
  else
    let quant_bb := pathJoin model_dir "model_quant.onnx"
    let quant_eb := pathJoin model_dir "model_eb_quant.onnx"
    let plain_eb := pathJoin model_dir "model_eb.onnx"
    if fs.fileExists quant_bb && fs.fileExists quant_eb then (model_dir, true)
    else if !(fs.fileExists quant_bb && fs.fileExists plain_eb) then (model_dir, true)
    else (mkdtemp, false)

/-- A Dependency Descriptor. -/
structure Dep where
  role : String
  modelName : String
  backend : String
  quantize : Bool

/-- `build_dependencies`: ASR always; VAD/PUNC only when a model name was given. -/
def build_dependencies (model_name backend : String) (quantize : Bool)
    (vad_model_name vad_backend : String) (vad_quantize : Bool)
    (punc_model_name punc_backend : String) : List Dep :=
  [⟨"ASR", model_name, backend, quantize⟩]
    ++ (if vad_model_name ≠ "" then [⟨"VAD", vad_model_name, vad_backend, vad_quantize⟩] else [])
    ++ (if punc_model_name ≠ "" then [⟨"PUNC", punc_model_name, punc_backend, false⟩] else [])

/-- A Dependency Status record. -/
structure DepStatus where
  role : String
  modelName : String
  backend : String
  quantize : Bool
  cached : Bool
  complete : Bool
  missingFiles : List String
  issue : String

/-- The candidate-scan loop of `inspect_dependency`: the first candidate whose
cache directory exists, else the empty string. -/
def firstExistingDir (fs : FS) : List String → String
  | [] => ""
  | c :: rest =>
    if fs.isdir (get_model_cache_path c) then get_model_cache_path c
    else firstExistingDir fs rest

/-- `inspect_dependency` (identical in `model_cache.py` lines 239-281 and
`asr_server.py` lines 360-402). -/
def inspect_dependency (fs : FS) (dep : Dep) : DepStatus :=
  let resolved := resolve_model_id dep.modelName
  let candidates := if dep.modelName ≠ resolved then [resolved, dep.modelName] else [resolved]
  let existing_model_dir := firstExistingDir fs candidates
  let cached : Bool := existing_model_dir ≠ ""
  if !cached then
    { role := dep.role, modelName := dep.modelName, backend := dep.backend,
      quantize := dep.quantize, cached := cached, complete := false,
      missingFiles := [], issue := "模型未下载" }
  else if String.isPrefixOf "funasr_onnx" dep.backend then
    let missing_files := get_missing_onnx_files fs existing_model_dir dep.backend dep.quantize
    if missing_files ≠ [] then
      { role := dep.role, modelName := dep.modelName, backend := dep.backend,
        quantize := dep.quantize, cached := cached, complete := false,
        missingFiles := missing_files, issue := "缺失文件: " ++ commaJoin missing_files }
    else
      { role := dep.role, modelName := dep.modelName, backend := dep.backend,
        quantize := dep.quantize, cached := cached, complete := true,
        missingFiles := missing_files, issue := "" }
  else
    { role := dep.role, modelName := dep.modelName, backend := dep.backend,
      quantize := dep.quantize, cached := cached, complete := true,
      missingFiles := [], issue := "" }

/-- A progress-channel message (`send_json` of a non-terminal object). -/
inductive OutMsg where
  | progress (id : Int) (value : ℤ)
  | progressStatus (id : Int) (value : ℤ) (status : String)
deriving Repr, DecidableEq

/-- The body of one iteration of the download loop up to its `except` clause
(identical in `model_cache.py` and `asr_server.py`): skip or fetch one
dependency, validating ONNX artifacts for artifact-checked backends.
`snapshot` is the downloader collaborator (`snapshot_download`). -/
def download_dep_attempt (fs : FS) (snapshot : String → Except Py.PyExc String)
    (msg_id : Int) (dep : Dep) (base next : ℤ) : List OutMsg × Except Py.PyExc Unit :=
  let resolved := resolve_model_id dep.modelName
  if is_model_cached fs resolved then
    match (if String.isPrefixOf "funasr_onnx" dep.backend then
             validate_onnx_files fs (get_model_cache_path resolved) dep.backend dep.quantize
           else .ok ()) with
    | .error e => ([], .error e)
    | .ok _ => ([.progress msg_id next], .ok ())
  else
    let statusMsg := OutMsg.progressStatus msg_id base
      ("下载" ++ dep.role ++ "模型 " ++ dep.modelName ++ "...")
    match snapshot resolved with
    | .error e => ([statusMsg], .error e)
    | .ok model_dir =>
      match (if String.isPrefixOf "funasr_onnx" dep.backend then
               validate_onnx_files fs model_dir dep.backend dep.quantize
             else .ok ()) with
      | .error e => ([statusMsg], .error e)
      | .ok _ => ([statusMsg, .progress msg_id next], .ok ())

/-- The indexed loop of `model_cache.download_model_with_progress`: any
exception in one iteration is re-raised as
`RuntimeError(f"预下载 {role} 模型失败: {model_name}") from e`, aborting the loop. -/
def download_loop (fs : FS) (snapshot : String → Except Py.PyExc String)
    (msg_id : Int) (total : ℕ) : ℕ → List Dep → List OutMsg × Except Py.PyExc Unit
  | _, [] => ([], .ok ())
  | i, dep :: rest =>
    let base : ℤ := ((i * 90) / total : ℕ)
    let next : ℤ := (((i + 1) * 90) / total : ℕ)
    let step := download_dep_attempt fs snapshot msg_id dep base next
    match step.2 with
    | .error e =>
      (step.1, .error (.causedBy "RuntimeError"
        ("预下载 " ++ dep.role ++ " 模型失败: " ++ dep.modelName) e))
    | .ok _ =>
      let restRun := download_loop fs snapshot msg_id total (i + 1) rest
      (step.1 ++ restRun.1, restRun.2)

/-- `model_cache.download_model_with_progress` (lines 177-213): emits progress
messages and raises a wrapped `RuntimeError` on the first failing dependency. -/
def download_model_with_progress (fs : FS) (snapshot : String → Except Py.PyExc String)
    (deps : List Dep) (msg_id : Int) : List OutMsg × Except Py.PyExc Unit :=
  if deps.length = 0 then ([.progress msg_id 90], .ok ())
  else download_loop fs snapshot msg_id deps.length 0 deps

end ModelCache

namespace Protocol

/-- The `error` object built by `protocol.error_response`: `phase`, `details`
and `data` keys are present only when non-empty / non-`None`. -/
structure ErrorObj where
  code : String
  message : String
  phase : Option String
  details : Option String
  dataField : Option Py.PyVal

/-- A failure terminal response `{id, ok: False, error: {...}}`. -/
structure ErrResp where
  id : Int
  ok : Bool
  error : ErrorObj

/-- Model of `traceback.format_exc()`: the formatted exception chain, the
`__cause__` rendered first, as Python prints chained tracebacks. -/
def renderTraceback : Py.PyExc → String
  | .base t m => t ++ ": " ++ m
  | .causedBy t m c =>
    renderTraceback c
      ++ "\nThe above exception was the direct cause of the following exception:\n"
      ++ t ++ ": " ++ m

/-- `protocol.error_response`. -/
def error_response (msg_id : Int) (code message phase details : String)
    (dataField : Option Py.PyVal) : ErrResp :=
  { id := msg_id, ok := false,
    error :=
      { code := code, message := message,
        phase := if phase ≠ "" then some phase else none,
        details := if details ≠ "" then some details else none,
        dataField := dataField } }

/-- `protocol.error_from_exception`: message `f"{message}: {type(exc).__name__}: {exc}"`,
details the formatted traceback. -/
def error_from_exception (msg_id : Int) (code message phase : String)
    (exc : Py.PyExc) (dataField : Option Py.PyVal) : ErrResp :=
  error_response msg_id code
    (message ++ ": " ++ exc.typeName ++ ": " ++ exc.message) phase
    (renderTraceback exc) dataField

end Protocol

namespace Py

/-- The fixed key-priority list `("text", "preds", "pred", "sentence", "transcript")`
probed by `normalize_result_text` on dicts. -/
def resultTextKeys : List String := ["text", "preds", "pred", "sentence", "transcript"]

/-- An ASR backend handle: called with the waveform and (depending on the
backend branch) an optional hotword string, it returns a result list or raises. -/
def AsrModel : Type := List ℚ → Option String → Except PyExc (List AsrItem)

/-- A VAD backend handle: called on the waveform, returns its structurally
variable output or raises. -/
def VadModel : Type := List ℚ → Except PyExc PyVal

end Py

namespace AsrServer

/-
Embeddings of the legacy monolithic server `asr_server.py` (the entry script
packaged by `build_sidecar.py`).
-/

/-- A PUNC handle of `asr_server.py`: `punc_model.generate(input=text)`. -/
def PuncModel : Type := String → Except Py.PyExc (List Py.PyVal)

/-- The Runtime Model State: the module-level globals
`asr_model, vad_model, punc_model, asr_backend, asr_hotwords_str`. -/
structure RuntimeState where
  asr_model : Option Py.AsrModel
  vad_model : Option Py.VadModel
  punc_model : Option PuncModel
  asr_backend : String
  asr_hotwords_str : String

/-- `reset_runtime_models` (`asr_server.py` lines 176-182). -/
def resetState : RuntimeState :=
  { asr_model := none, vad_model := none, punc_model := none,
    asr_backend := "funasr_torch", asr_hotwords_str := "" }

/-- The first loop of `normalize_hotwords_for_onnx` (lines 188-195): the first
whitespace token of each line, first occurrence only.  The `seen` set always
holds exactly the words collected so far, so `words` doubles as `seen`. -/
def hotwordFirstTokenLoop : List String → List String → List String
  | [], words => words
  | line :: rest, words =>
    match Py.pySplitWs (Py.pyStrip line) with
    | [] => hotwordFirstTokenLoop rest words
    | w :: _ =>
      if w ∈ words then hotwordFirstTokenLoop rest words
      else hotwordFirstTokenLoop rest (words ++ [w])

/-- The fallback loop of `normalize_hotwords_for_onnx` (lines 196-200). -/
def hotwordFallbackLoop : List String → List String → List String
  | [], words => words
  | w :: rest, words =>
    if w ≠ "" ∧ w ∉ words then hotwordFallbackLoop rest (words ++ [w])
    else hotwordFallbackLoop rest words

/-- `normalize_hotwords_for_onnx` (`asr_server.py` lines 185-203). -/
def normalize_hotwords_for_onnx (hotwords : String) : String :=
  let words := hotwordFirstTokenLoop (Py.pySplitlines hotwords) []
  let words := if words = [] then hotwordFallbackLoop (Py.pySplitWs (Py.pyStrip hotwords)) words
               else words
  let words := if words = [] then words ++ ["。"] else words
  Py.pyJoinSpace words

mutual

/-- `normalize_result_text` (`asr_server.py` lines 206-232). -/
def normalize_result_text (value : Py.PyVal) : String :=
  match value with
  | .pyNone => ""
  | .pyStr s => s
  | .pyInt n => Py.pyStrOfInt n
  | .pyFloat q => Py.pyStrOfFloat q
  | .pyBool b => Py.pyStrOfBool b
  | .pyList items =>
    let joined := String.join
      ((items.attach.map (fun x => normalize_result_text x.1)).filter (fun t => t ≠ ""))
    (match items with
     | Py.PyVal.pyStr s :: rest =>
       if !rest.isEmpty && rest.any (fun it => !(Py.isStrVal it)) then
         (if Py.pyStrip s ≠ "" then Py.pyStrip s else joined)
       else joined
     | _ => joined)
  | .pyTuple items =>
    let joined := String.join
      ((items.attach.map (fun x => normalize_result_text x.1)).filter (fun t => t ≠ ""))
    (match items with
     | Py.PyVal.pyStr s :: rest =>
       if !rest.isEmpty && rest.any (fun it => !(Py.isStrVal it)) then
         (if Py.pyStrip s ≠ "" then Py.pyStrip s else joined)
       else joined
     | _ => joined)
  | .pyDict entries => probe_result_keys Py.resultTextKeys entries
termination_by (sizeOf value, 0)
decreasing_by
  · have hm := List.sizeOf_lt_of_mem x.2
    simp only [Py.PyVal.pyList.sizeOf_spec]
    apply Prod.Lex.left
    omega
  · have hm := List.sizeOf_lt_of_mem x.2
    simp only [Py.PyVal.pyTuple.sizeOf_spec]
    apply Prod.Lex.left
    omega
  · simp only [Py.PyVal.pyDict.sizeOf_spec]
    apply Prod.Lex.left
    omega

/-- The dict-probing loop of `normalize_result_text`:
`for key in ("text","preds","pred","sentence","transcript"): ...`. -/
def probe_result_keys (keys : List String) (entries : List (String × Py.PyVal)) : String :=
  match keys with
  | [] => ""
  | k :: rest =>
    match hfk : Py.findKey entries k with
    | some v =>
      let n := normalize_result_text v
      if n ≠ "" then n else probe_result_keys rest entries
    | none => probe_result_keys rest entries
termination_by (sizeOf entries, keys.length + 1)
decreasing_by
  · apply Prod.Lex.left
    induction entries with
    | nil => simp [Py.findKey] at hfk
    | cons e tail ih =>
      unfold Py.findKey at hfk
      split at hfk
      · obtain ⟨k1, v1⟩ := e
        cases hfk
        simp
        omega
      · have := ih hfk
        simp at this ⊢
        omega
  · apply Prod.Lex.right
    simp
  · apply Prod.Lex.right
    simp

end

/-- `decode_wav` (`asr_server.py` lines 251-254): skip the 44-byte header,
decode little-endian int16, divide by 32768.  `np.frombuffer` raises on a
buffer whose size is not a multiple of the element size. -/
def decode_wav (wav_bytes : List ℕ) : Except Py.PyExc (List ℚ) :=
  let pcm := wav_bytes.drop 44
  if pcm.length % 2 ≠ 0 then
    .error (.base "ValueError" "buffer size must be a multiple of element size")
  else .ok ((Py.bytePairsToInt16 pcm).map (fun n => (n : ℚ) / 32768))

/-- `split_segments_by_vad` (`asr_server.py` lines 507-544).  The second
component records whether the VAD backend was invoked.  A raising backend is
caught and the whole waveform returned as the single segment. -/
def split_segments_by_vad (vad_model : Option Py.VadModel) (samples : List ℚ) :
    List (List ℚ) × Bool :=
  match vad_model with
  | none => ([samples], false)
  | some vad =>
    match vad samples with
    | .error _ => ([samples], true)
    | .ok vad_output =>
      let pairs := Py.extract_vad_pairs vad_output
      if pairs = [] then ([samples], true)
      else
        let deduped := VadSeg.dedupPairs pairs []
        let sorted := VadSeg.sortPairs deduped
        let segmented := sorted.filterMap
          (fun p => (VadSeg.toRange samples.length p).map (fun r => Py.pySlice samples r.1 r.2))
        (if segmented = [] then [samples] else segmented, true)

/-- `run_asr_once` (`asr_server.py` lines 547-569).  The second component
records whether the ASR backend was invoked. -/
def run_asr_once (st : RuntimeState) (samples : List ℚ) : Except Py.PyExc String × Bool :=
  match st.asr_model with
  | none => (.ok "", false)
  | some asr =>
    let callResult :=
      if st.asr_backend = "funasr_onnx_contextual" then
        asr samples (some (normalize_hotwords_for_onnx st.asr_hotwords_str))
      else if st.asr_backend = "funasr_onnx_paraformer" then
        asr samples none
      else
        asr samples (if st.asr_hotwords_str ≠ "" then some st.asr_hotwords_str else none)
    match callResult with
    | .error e => (.error e, true)
    | .ok result =>
      match result with
      | [] => (.ok "", true)
      | item :: _ =>
        match item with
        | .withTextAttr t => (.ok (normalize_result_text t), true)
        | .plain v => (.ok (normalize_result_text v), true)

/-- `run_punc` (`asr_server.py` lines 572-586): a raising PUNC backend is
caught and the unpunctuated text returned. -/
def run_punc (punc_model : Option PuncModel) (text : String) : String :=
  if text = "" ∨ Py.pyStrip text = "" then ""
  else
    match punc_model with
    | none => text
    | some punc =>
      match punc text with
      | .error _ => text
      | .ok result =>
        match result with
        | [] => text
        | r :: _ =>
          let normalized := normalize_result_text r
          if normalized ≠ "" then normalized else text

/-- A terminal response of the `recognize` handler: the failure dict carries
only `id`, `ok: False` and an `error` string; the success dict carries
`text`, `rawText`, `segmentCount` and `asrPasses` and has no error key. -/
inductive RecResp where
  | failure (id : Int) (error : String)
  | success (id : Int) (text rawText : String) (segmentCount asrPasses : ℕ)

/-- The `recognize` branch of `handle_message` (`asr_server.py` lines 653-683).
Result components: the terminal response (or a propagated exception), whether
the VAD backend was invoked, whether the ASR backend was invoked. -/
def handle_recognize (st : RuntimeState) (msg_id : Int) (wav_bytes : List ℕ) :
    Except Py.PyExc RecResp × Bool × Bool :=
  match st.asr_model with
  | none => (.ok (.failure msg_id "识别器未初始化"), false, false)
  | some _ =>
    match decode_wav wav_bytes with
    | .error e => (.error e, false, false)
    | .ok samples =>
      let split := split_segments_by_vad st.vad_model samples
      let segments := split.1
      let merged :=
        if segments.length ≤ 1 then
          match segments with
          | [] => samples
          | s :: _ => s
        else
          let valid := segments.filter (fun seg => seg ≠ [])
          if valid ≠ [] then valid.flatten else samples
      match run_asr_once st merged with
      | (.error e, asrInv) => (.error e, split.2, asrInv)
      | (.ok raw, asrInv) =>
        let raw_text := Py.pyStrip raw
        let text := run_punc st.punc_model raw_text
        (.ok (.success msg_id text raw_text segments.length 1), split.2, asrInv)

/-- The external constructors materialized by `create_asr_model`,
`create_vad_model` and `create_punc_model`: library imports, the
`funasr_onnx` / `funasr` model classes, and `tempfile.mkdtemp`. -/
structure FactoryOracles where
  importFunasrOnnx : Except Py.PyExc Unit
  mkContextual : String → Bool → Except Py.PyExc Py.AsrModel
  mkParaformer : String → Bool → Except Py.PyExc Py.AsrModel
  mkAutoModelAsr : String → Except Py.PyExc Py.AsrModel
  mkFsmnVad : String → Bool → Except Py.PyExc Py.VadModel
  mkAutoModelPunc : String → Except Py.PyExc PuncModel
  mkdtemp : String

/-- `create_asr_model` (`asr_server.py` lines 412-452).  A failing
`funasr_onnx` import is wrapped as `RuntimeError(...) from e`; the
`model.language` default attribute write is a mutation of the opaque handle
and is not modelled. -/
def create_asr_model (fac : FactoryOracles) (fs : ModelCache.FS)
    (model_name backend : String) (quantize : Bool) : Except Py.PyExc Py.AsrModel :=
  if backend = "funasr_onnx_contextual" then
    match fac.importFunasrOnnx with
    | .error e =>
      .error (.causedBy "RuntimeError" "缺少 funasr_onnx 依赖，请安装 requirements.txt 后重试" e)
    | .ok _ =>
      let model_dir := ModelCache.resolve_model_dir fs model_name
      let adapted := ModelCache.adapt_contextual_quant_model_dir fs fac.mkdtemp model_dir quantize
      fac.mkContextual adapted.1 adapted.2
  else if backend = "funasr_onnx_paraformer" then
    match fac.importFunasrOnnx with
    | .error e =>
      .error (.causedBy "RuntimeError" "缺少 funasr_onnx 依赖，请安装 requirements.txt 后重试" e)
    | .ok _ => fac.mkParaformer (ModelCache.resolve_model_dir fs model_name) quantize
  else
    fac.mkAutoModelAsr (ModelCache.resolve_model_dir fs model_name)

/-- `create_vad_model` (`asr_server.py` lines 455-470): empty name yields no
model; only the `funasr_onnx_vad` backend is supported, anything else raises. -/
def create_vad_model (fac : FactoryOracles) (fs : ModelCache.FS)
    (model_name backend : String) (quantize : Bool) : Except Py.PyExc (Option Py.VadModel) :=
  if model_name = "" then .ok none
  else if backend = "funasr_onnx_vad" then
    match fac.importFunasrOnnx with
    | .error e =>
      .error (.causedBy "RuntimeError" "缺少 funasr_onnx 依赖，请安装 requirements.txt 后重试" e)
    | .ok _ => (fac.mkFsmnVad (ModelCache.resolve_model_dir fs model_name) quantize).map some
  else .error (.base "RuntimeError" ("不支持的 VAD backend: " ++ backend))

/-- `create_punc_model` (`asr_server.py` lines 473-491). -/
def create_punc_model (fac : FactoryOracles) (fs : ModelCache.FS)
    (model_name backend : String) : Except Py.PyExc (Option PuncModel) :=
  if model_name = "" then .ok none
  else if backend = "funasr_torch_punc" then
    (fac.mkAutoModelPunc (ModelCache.resolve_model_dir fs model_name)).map some
  else .error (.base "RuntimeError" ("不支持的 PUNC backend: " ++ backend))

/-- The indexed loop of the legacy `download_model_with_progress`
(`asr_server.py` lines 296-334): any exception in one iteration is written to
stderr, the iteration's final progress value is still sent, and the loop
continues — the failure is swallowed. -/
def download_loop_swallow (fs : ModelCache.FS)
    (snapshot : String → Except Py.PyExc String) (msg_id : Int) (total : ℕ) :
    ℕ → List ModelCache.Dep → List ModelCache.OutMsg
  | _, [] => []
  | i, dep :: rest =>
    let base : ℤ := ((i * 90) / total : ℕ)
    let next : ℤ := (((i + 1) * 90) / total : ℕ)
    let step := ModelCache.download_dep_attempt fs snapshot msg_id dep base next
    match step.2 with
    | .error _ =>
      (step.1 ++ [.progress msg_id next])
        ++ download_loop_swallow fs snapshot msg_id total (i + 1) rest
    | .ok _ => step.1 ++ download_loop_swallow fs snapshot msg_id total (i + 1) rest

/-- The legacy `download_model_with_progress` of `asr_server.py`: never raises. -/
def download_model_with_progress (fs : ModelCache.FS)
    (snapshot : String → Except Py.PyExc String) (deps : List ModelCache.Dep)
    (msg_id : Int) : List ModelCache.OutMsg :=
  if deps.length = 0 then [.progress msg_id 90]
  else download_loop_swallow fs snapshot msg_id deps.length 0 deps

/-- An `init` request after `handle_message` has applied the
`msg.get(..., default)` defaults. -/
structure InitMsg where
  id : Int
  modelName : String
  backend : String
  quantize : Bool
  hotwords : String
  vadModelName : String
  vadBackend : String
  vadQuantize : Bool
  puncModelName : String
  puncBackend : String

/-- The success terminal response of `init`: `{"id": msg_id, "ok": True}`. -/
structure OkResp where
  id : Int

/-- The `init` branch of `handle_message` (`asr_server.py` lines 595-651),
as a transformer of the Runtime Model State.  Returns the state as left by
the handler, the progress messages sent, and the terminal outcome (an
exception propagates to `main`, which converts it into a failure response).
`cleanup_tmp_files` and `write_hotwords_tmp` touch only on-disk transients,
not the Runtime Model State. -/
def handle_init (fac : FactoryOracles) (fs : ModelCache.FS)
    (snapshot : String → Except Py.PyExc String) (m : InitMsg) :
    RuntimeState × List ModelCache.OutMsg × Except Py.PyExc OkResp :=
  let st0 := resetState
  let deps := ModelCache.build_dependencies m.modelName m.backend m.quantize
    m.vadModelName m.vadBackend m.vadQuantize m.puncModelName m.puncBackend
  let sent := [ModelCache.OutMsg.progressStatus m.id 0 "检查模型..."]
    ++ download_model_with_progress fs snapshot deps m.id
    ++ [.progressStatus m.id 92 "加载 ASR 模型..."]
  match create_asr_model fac fs m.modelName m.backend m.quantize with
  | .error e => (st0, sent, .error e)
  | .ok a =>
    let st1 := { st0 with
      asr_model := some a, asr_backend := m.backend, asr_hotwords_str := m.hotwords }
    let sent := sent ++ [.progressStatus m.id 96 "加载 VAD 模型..."]
    match create_vad_model fac fs m.vadModelName m.vadBackend m.vadQuantize with
    | .error e => (st1, sent, .error e)
    | .ok v =>
      let st2 := { st1 with vad_model := v }
      let sent := sent ++ [.progressStatus m.id 98 "加载 PUNC 模型..."]
      match create_punc_model fac fs m.puncModelName m.puncBackend with
      | .error e => (st2, sent, .error e)
      | .ok p => ({ st2 with punc_model := p }, sent, .ok { id := m.id })

/-- A parsed inbound message, as far as the dispatch loop reads it:
`msg.get("id", 0)`. -/
structure InMsg where
  idField : Option Int

/-- An inbound line of `main` after `line.strip()`: blank, not valid JSON
(with the exception `json.loads` raises), or a parsed message. -/
inductive InLine where
  | blank
  | badJson (exc : Py.PyExc)
  | goodJson (m : InMsg)

/-- An outbound terminal message of the dispatch loop. -/
inductive LoopEvent (R : Type) where
  | reply (r : R)
  | internalFailure (id : Int) (error details : String)

/-- The observable outcome of running `main`'s loop over a list of input
lines: the terminal responses sent, and whether the loop itself crashed
(an exception escaping the `except` handler kills the process). -/
structure LoopOutcome (R : Type) where
  sent : List (LoopEvent R)
  crashed : Bool

/-- The dispatch loop of `main` (`asr_server.py` lines 733-755), generic over
the handler.  The accumulator is the binding state of the local variable
`msg`: it is only (re)bound when `json.loads` succeeds, so inside the
`except` handler it still refers to the previous request — and on a parse
failure before any successful parse it is unbound, making
`isinstance(msg, dict)` raise `UnboundLocalError` inside the handler, which
nothing catches: the loop dies. -/
def runMain {R : Type} (handler : InMsg → Except Py.PyExc R) :
    Option InMsg → List InLine → LoopOutcome R
  | _, [] => ⟨[], false⟩
  | msgBound, line :: rest =>
    match line with
    | .blank => runMain handler msgBound rest
    | .goodJson m =>
      match handler m with
      | .ok r =>
        let tail := runMain handler (some m) rest
        ⟨.reply r :: tail.sent, tail.crashed⟩
      | .error e =>
        let tail := runMain handler (some m) rest
        ⟨.internalFailure (m.idField.getD 0)
            ("sidecar 内部异常: " ++ e.typeName ++ ": " ++ e.message)
            (Protocol.renderTraceback e) :: tail.sent,
          tail.crashed⟩
    | .badJson e =>
      match msgBound with
      | none => ⟨[], true⟩
      | some prev =>
        let tail := runMain handler (some prev) rest
        ⟨.internalFailure (prev.idField.getD 0)
            ("sidecar 内部异常: " ++ e.typeName ++ ": " ++ e.message)
            (Protocol.renderTraceback e) :: tail.sent,
          tail.crashed⟩

end AsrServer

namespace Inference

/-
Embeddings of the modular runtime `inference.py`.
-/

/-- A PUNC handle of `inference.py`: either an object with a `generate`
method (`hasattr(punc_model, "generate")`) or a directly callable
`CT_Transformer`. -/
inductive PuncModel where
  | withGenerate (f : String → Except Py.PyExc (List Py.PyVal))
  | callable (f : String → Except Py.PyExc Py.PyVal)

/-- The Runtime Model State of `inference.py` (lines 8-12). -/
structure RuntimeState where
  asr_model : Option Py.AsrModel
  vad_model : Option Py.VadModel
  punc_model : Option PuncModel
  asr_backend : String
  asr_hotwords_str : String

/-- `reset_runtime_models` (`inference.py` lines 15-21); note the default
backend differs from the legacy server's. -/
def resetState : RuntimeState :=
  { asr_model := none, vad_model := none, punc_model := none,
    asr_backend := "funasr_onnx_contextual", asr_hotwords_str := "" }

/-- The `token_iter` selection of `_extract_hotwords` (`inference.py` lines
36-39): when a line's second token is a numeric weight (digits after removing
at most one dot), only the first token is taken; otherwise every token. -/
def token_iter_for_line (tokens : List String) : List String :=
  match tokens with
  | t0 :: t1 :: _ => if Py.isPyDigit (Py.removeFirstDot t1) then [t0] else tokens
  | _ => tokens

/-- `for word in token_iter: if word and word not in seen: ...` — `words`
doubles as `seen` (they are extended in lockstep). -/
def addWords : List String → List String → List String
  | [], words => words
  | w :: rest, words =>
    if w ≠ "" ∧ w ∉ words then addWords rest (words ++ [w]) else addWords rest words

/-- The per-line loop of `_extract_hotwords` (`inference.py` lines 31-44). -/
def extractLines : List String → List String → List String
  | [], words => words
  | line :: rest, words =>
    extractLines rest (addWords (token_iter_for_line (Py.pySplitWs (Py.pyStrip line))) words)

/-- `_extract_hotwords` (`inference.py` lines 26-51). -/
def extract_hotwords (hotwords : String) : List String :=
  let words := extractLines (Py.pySplitlines hotwords) []
  if words = [] then addWords (Py.pySplitWs (Py.pyStrip hotwords)) words else words

/-- `normalize_hotwords_for_onnx` (`inference.py` lines 54-58). -/
def normalize_hotwords_for_onnx (hotwords : String) : String :=
  let words := extract_hotwords hotwords
  let words := if words = [] then words ++ ["。"] else words
  Py.pyJoinSpace words

mutual

/-- `normalize_result_text` (`inference.py` lines 94-120). -/
def normalize_result_text (value : Py.PyVal) : String :=
  match value with
  | .pyNone => ""
  | .pyStr s => s
  | .pyInt n => Py.pyStrOfInt n
  | .pyFloat q => Py.pyStrOfFloat q
  | .pyBool b => Py.pyStrOfBool b
  | .pyList items =>
    let joined := String.join
      ((items.attach.map (fun x => normalize_result_text x.1)).filter (fun t => t ≠ ""))
    (match items with
     | Py.PyVal.pyStr s :: rest =>
       if !rest.isEmpty && rest.any (fun it => !(Py.isStrVal it)) then
         (if Py.pyStrip s ≠ "" then Py.pyStrip s else joined)
       else joined
     | _ => joined)
  | .pyTuple items =>
    let joined := String.join
      ((items.attach.map (fun x => normalize_result_text x.1)).filter (fun t => t ≠ ""))
    (match items with
     | Py.PyVal.pyStr s :: rest =>
       if !rest.isEmpty && rest.any (fun it => !(Py.isStrVal it)) then
         (if Py.pyStrip s ≠ "" then Py.pyStrip s else joined)
       else joined
     | _ => joined)
  | .pyDict entries => probe_result_keys Py.resultTextKeys entries
termination_by (sizeOf value, 0)
decreasing_by
  · have hm := List.sizeOf_lt_of_mem x.2
    simp only [Py.PyVal.pyList.sizeOf_spec]
    apply Prod.Lex.left
    omega
  · have hm := List.sizeOf_lt_of_mem x.2
    simp only [Py.PyVal.pyTuple.sizeOf_spec]
    apply Prod.Lex.left
    omega
  · simp only [Py.PyVal.pyDict.sizeOf_spec]
    apply Prod.Lex.left
    omega

/-- The dict-probing loop of `inference.py`'s `normalize_result_text`. -/
def probe_result_keys (keys : List String) (entries : List (String × Py.PyVal)) : String :=
  match keys with
  | [] => ""
  | k :: rest =>
    match hfk : Py.findKey entries k with
    | some v =>
      let n := normalize_result_text v
      if n ≠ "" then n else probe_result_keys rest entries
    | none => probe_result_keys rest entries
termination_by (sizeOf entries, keys.length + 1)
decreasing_by
  · apply Prod.Lex.left
    induction entries with
    | nil => simp [Py.findKey] at hfk
    | cons e tail ih =>
      unfold Py.findKey at hfk
      split at hfk
      · obtain ⟨k1, v1⟩ := e
        cases hfk
        simp
        omega
      · have := ih hfk
        simp at this ⊢
        omega
  · apply Prod.Lex.right
    simp
  · apply Prod.Lex.right
    simp

end

/-- `decode_wav` (`inference.py` lines 123-130): empty or header-only
payloads yield an empty waveform before any buffer decode is attempted. -/
def decode_wav (wav_bytes : List ℕ) : Except Py.PyExc (List ℚ) :=
  if wav_bytes = [] ∨ wav_bytes.length ≤ 44 then .ok []
  else
    let pcm := wav_bytes.drop 44
    if pcm = [] then .ok []
    else if pcm.length % 2 ≠ 0 then
      .error (.base "ValueError" "buffer size must be a multiple of element size")
    else .ok ((Py.bytePairsToInt16 pcm).map (fun n => (n : ℚ) / 32768))

/-- `split_segments_by_vad` (`inference.py` lines 148-184).  Differences from
the legacy copy: an empty waveform short-circuits to an empty segment list
before any backend call, and a raising VAD backend is re-raised as
`RuntimeError("VAD 推理失败") from e` instead of being caught here.  The
second component records whether the VAD backend was invoked. -/
def split_segments_by_vad (vad_model : Option Py.VadModel) (samples : List ℚ) :
    Except Py.PyExc (List (List ℚ)) × Bool :=
  if samples = [] then (.ok [], false)
  else
    match vad_model with
    | none => (.ok [samples], false)
    | some vad =>
      match vad samples with
      | .error e => (.error (.causedBy "RuntimeError" "VAD 推理失败" e), true)
      | .ok vad_output =>
        let pairs := Py.extract_vad_pairs vad_output
        if pairs = [] then (.ok [samples], true)
        else
          let deduped := VadSeg.dedupPairs pairs []
          let sorted := VadSeg.sortPairs deduped
          let segmented := sorted.filterMap
            (fun p => (VadSeg.toRange samples.length p).map (fun r => Py.pySlice samples r.1 r.2))
          (.ok (if segmented = [] then [samples] else segmented), true)

/-- `run_asr_once` (`inference.py` lines 189-213): an empty waveform or a
missing ASR handle return `""` without any backend call.  The second
component records whether the ASR backend was invoked. -/
def run_asr_once (st : RuntimeState) (samples : List ℚ) : Except Py.PyExc String × Bool :=
  if samples = [] then (.ok "", false)
  else
    match st.asr_model with
    | none => (.ok "", false)
    | some asr =>
      let callResult :=
        if st.asr_backend = "funasr_onnx_contextual" then
          asr samples (some (normalize_hotwords_for_onnx st.asr_hotwords_str))
        else if st.asr_backend = "funasr_onnx_paraformer" then
          asr samples none
        else
          asr samples (if st.asr_hotwords_str ≠ "" then some st.asr_hotwords_str else none)
      match callResult with
      | .error e => (.error e, true)
      | .ok result =>
        match result with
        | [] => (.ok "", true)
        | item :: _ =>
          match item with
          | .withTextAttr t => (.ok (normalize_result_text t), true)
          | .plain v => (.ok (normalize_result_text v), true)

/-- `run_punc` (`inference.py` lines 216-238): a raising PUNC backend is
re-raised as `RuntimeError("PUNC 推理失败") from e`.  The second component
records whether the PUNC backend was invoked. -/
def run_punc (punc_model : Option PuncModel) (text : String) :
    Except Py.PyExc String × Bool :=
  if text = "" ∨ Py.pyStrip text = "" then (.ok "", false)
  else
    match punc_model with
    | none => (.ok text, false)
    | some (.withGenerate f) =>
      match f text with
      | .error e => (.error (.causedBy "RuntimeError" "PUNC 推理失败" e), true)
      | .ok result =>
        match result with
        | [] => (.ok text, true)
        | r :: _ =>
          let normalized := normalize_result_text r
          if normalized ≠ "" then (.ok normalized, true) else (.ok text, true)
    | some (.callable f) =>
      match f text with
      | .error e => (.error (.causedBy "RuntimeError" "PUNC 推理失败" e), true)
      | .ok result =>
        let normalized := normalize_result_text result
        if normalized ≠ "" then (.ok normalized, true) else (.ok text, true)

end Inference

namespace SpecServer

/-
The current modular server's entry module — the dispatcher and command
handlers that import `protocol.py`, `model_cache.py`, `model_factory.py` and
`inference.py` — is part of this repository but is not under `src/`; only
those callee modules are.  The handler-level glue below is therefore
modelled from the spec (each doc comment names its spec source); everything
it delegates to is the embedded source code above.
-/

/-- Modelled from the spec: `mergeForRecognition(segments, fallbackWaveform)`
of §4.4 — "if zero or one segment resulted, returns that segment (or the
fallback waveform if none).  If multiple segments resulted, concatenates all
non-empty segments in their sorted order into one waveform". -/
def mergeForRecognition (segments : List (List ℚ)) (fallback : List ℚ) : List ℚ :=
  match segments with
  | [] => fallback
  | [s] => s
  | _ => (segments.filter (fun s => s ≠ [])).flatten

/-- A terminal response of the modelled `recognize` handler (spec §6:
success adds `{text, rawText, segmentCount, asrPasses}`; failure carries an
Error Envelope). -/
inductive RecOutcome where
  | success (id : Int) (text rawText : String) (segmentCount asrPasses : ℕ)
  | failure (resp : Protocol.ErrResp)

/-- Modelled from the spec: the tail of the `recognize` handler after
segmentation — merge (§4.4), one ASR pass over the merged waveform (§4.4,
§4.5 `runRecognition` → `ASR_INFER_FAILED`), punctuation restoration (§4.5
`runPunctuationRestoration` → `PUNC_INFER_FAILED`; the surfaced-failure
policy is chosen, as §4.5 requires picking one), and the success payload
(§6), with `asrPasses` counting the ASR decoding passes performed. -/
def recognizeCore (st : Inference.RuntimeState) (msg_id : Int)
    (segments : List (List ℚ)) (samples : List ℚ) (vadInv : Bool) :
    RecOutcome × Bool × Bool :=
  let merged := mergeForRecognition segments samples
  match Inference.run_asr_once st merged with
  | (.error e, asrInv) =>
    (.failure (Protocol.error_from_exception msg_id "ASR_INFER_FAILED" "识别失败" "asr" e none),
     vadInv, asrInv)
  | (.ok raw, asrInv) =>
    let rawText := Py.pyStrip raw
    match Inference.run_punc st.punc_model rawText with
    | (.error e, _) =>
      (.failure (Protocol.error_from_exception msg_id "PUNC_INFER_FAILED" "标点恢复失败" "punc" e none),
       vadInv, asrInv)
    | (.ok text, _) =>
      (.success msg_id text rawText segments.length (if asrInv then 1 else 0), vadInv, asrInv)

/-- Modelled from the spec: the `recognize` command handler of the current
modular server (its entry module is not under `src/`).  Per §4.4/§4.5/§7 it
decodes the payload (`AUDIO_DECODE_FAILED` on a decode error), asks
`inference.split_segments_by_vad` for segments, recovers a raised VAD failure
locally by treating the whole waveform as one segment ("voice-activity
failures are recovered locally (fallback to whole-waveform segmentation) and
never surfaced as an error"), and continues with `recognizeCore`.  The two
booleans report whether the VAD and ASR backends were invoked. -/
def recognizeHandler (st : Inference.RuntimeState) (msg_id : Int)
    (wav_bytes : List ℕ) : RecOutcome × Bool × Bool :=
  match Inference.decode_wav wav_bytes with
  | .error e =>
    (.failure (Protocol.error_from_exception msg_id "AUDIO_DECODE_FAILED" "音频解码失败" "decode" e none),
     false, false)
  | .ok samples =>
    match Inference.split_segments_by_vad st.vad_model samples with
    | (.error _, vadInv) => recognizeCore st msg_id [samples] samples vadInv
    | (.ok segments, vadInv) => recognizeCore st msg_id segments samples vadInv

/-- The outcome of the download phase of the modelled `init` handler. -/
inductive InitDownloadOutcome where
  | aborted (resp : Protocol.ErrResp) (sent : List ModelCache.OutMsg)
  | proceedToLoading (sent : List ModelCache.OutMsg)

/-- Modelled from the spec: the download phase of the `init` handler of the
current modular server (its entry module is not under `src/`).  Per §4.3
step 3 it delegates to `model_cache.download_model_with_progress` and, on a
raised download failure, "aborts `init` with `MODEL_DOWNLOAD_FAILED` and the
original cause attached as `details`" via `protocol.error_from_exception`;
only on success does `init` proceed to the model-loading phase. -/
def initDownloadPhase (fs : ModelCache.FS)
    (snapshot : String → Except Py.PyExc String) (deps : List ModelCache.Dep)
    (msg_id : Int) : InitDownloadOutcome :=
  match ModelCache.download_model_with_progress fs snapshot deps msg_id with
  | (msgs, .error e) =>
    .aborted (Protocol.error_from_exception msg_id "MODEL_DOWNLOAD_FAILED" "模型下载失败" "download" e none) msgs
  | (msgs, .ok _) => .proceedToLoading msgs

end SpecServer

namespace Fixtures

/-- A filesystem with no cache directories and no files. -/
def emptyFS : ModelCache.FS :=
  { isdir := fun _ => false, fileExists := fun _ => false, walkHasFiles := fun _ => false }

/-- A downloader collaborator that raises for every model. -/
def offlineSnapshot : String → Except Py.PyExc String :=
  fun _ => .error (.base "HTTPError" "offline")

/-- Factory oracles whose imports and constructors all succeed, yielding
inert backend handles. -/
def trivialFactory : AsrServer.FactoryOracles :=
  { importFunasrOnnx := .ok ()
    mkContextual := fun _ _ => .ok (fun _ _ => .ok [])
    mkParaformer := fun _ _ => .ok (fun _ _ => .ok [])
    mkAutoModelAsr := fun _ => .ok (fun _ _ => .ok [])
    mkFsmnVad := fun _ _ => .ok (fun _ => .ok Py.PyVal.pyNone)
    mkAutoModelPunc := fun _ => .ok (fun _ => .ok [])
    mkdtemp := "/tmp/funasr-ctx-compat-x" }

/-- An `init` request that loads a paraformer ASR model and names a VAD model
with an unsupported backend string. -/
def initMsgVadBogus : AsrServer.InitMsg :=
  { id := 1, modelName := "m", backend := "funasr_onnx_paraformer", quantize := false,
    hotwords := "肉眼所见 20", vadModelName := "v", vadBackend := "bogus",
    vadQuantize := true, puncModelName := "", puncBackend := "funasr_torch_punc" }

/-- The legacy `init` handler evaluated at `initMsgVadBogus`. -/
def initRunVadBogus :
    AsrServer.RuntimeState × List ModelCache.OutMsg × Except Py.PyExc AsrServer.OkResp :=
  AsrServer.handle_init trivialFactory emptyFS offlineSnapshot initMsgVadBogus

/-- A live modular-runtime state: all three backends present (the VAD and
ASR oracles would be observable if invoked). -/
def liveInferenceState : Inference.RuntimeState :=
  { asr_model := some (fun _ _ => .ok [Py.AsrItem.plain (Py.PyVal.pyStr "哈喽")])
    vad_model := some (fun _ => .ok (Py.PyVal.pyList []))
    punc_model := some (.withGenerate (fun _ => .ok []))
    asr_backend := "funasr_onnx_contextual"
    asr_hotwords_str := "" }

/-- A legacy-server state whose VAD backend raises on every call and whose
paraformer ASR backend recognizes `"哈喽"`. -/
def vadRaisingState : AsrServer.RuntimeState :=
  { asr_model := some (fun _ _ => .ok [Py.AsrItem.plain (Py.PyVal.pyStr "哈喽")])
    vad_model := some (fun _ => .error (.base "RuntimeError" "onnx session failed"))
    punc_model := none
    asr_backend := "funasr_onnx_paraformer"
    asr_hotwords_str := "" }

/-- A 46-byte payload: a 44-byte header and one zero 16-bit sample. -/
def oneSampleWav : List ℕ := List.replicate 44 0 ++ [0, 0]

end Fixtures


/-! ## Theorems -/

namespace VadSeg

theorem pyTrunc_mono {a b : ℚ} (h : a ≤ b) : pyTrunc a ≤ pyTrunc b := by
  unfold pyTrunc
  by_cases ha : 0 ≤ a
  · have hb : 0 ≤ b := ha.trans h
    simp only [ha, hb, if_true]
    exact Int.floor_le_floor h
  · by_cases hb : 0 ≤ b
    · simp only [ha, hb, if_true, if_false]
      have h1 : (⌈a⌉ : ℤ) ≤ 0 := by
        have h0 : (⌈a⌉ : ℤ) ≤ ⌈(0 : ℚ)⌉ := Int.ceil_le_ceil (le_of_lt (lt_of_not_ge ha))
        simpa using h0
      have h2 : (0 : ℤ) ≤ ⌊b⌋ := Int.floor_nonneg.mpr hb
      omega
    · simp only [ha, hb, if_false]
      exact Int.ceil_le_ceil h

theorem toRange_some {total : ℕ} {p : ℚ × ℚ} {r : ℤ × ℤ} (h : toRange total p = some r) :
    r = (max 0 (pyTrunc (p.1 * 16)), min (total : ℤ) (pyTrunc (p.2 * 16))) ∧
      r.1 < r.2 ∧ 320 ≤ r.2 - r.1 := by
  unfold toRange at h
  dsimp only at h
  split at h
  · exact absurd h (by simp)
  · split at h
    · exact absurd h (by simp)
    · refine ⟨(Option.some_inj.mp h).symm, ?_, ?_⟩ <;>
        · obtain rfl := Option.some_inj.mp h
          omega

theorem toRange_rel {total : ℕ} {p q : ℚ × ℚ} {rp rq : ℤ × ℤ}
    (hlex : lexLe p q) (hd : msDisjoint p q)
    (hp : toRange total p = some rp) (hq : toRange total q = some rq) :
    rp.2 ≤ rq.1 ∧ rp.1 < rq.1 := by
  obtain ⟨hpe, hplt, -⟩ := toRange_some hp
  obtain ⟨hqe, hqlt, -⟩ := toRange_some hq
  have hp1le : p.1 ≤ q.1 := by
    rcases hlex with h | ⟨h, -⟩
    · exact le_of_lt h
    · exact le_of_eq h
  rcases hd with hcase | hcase
  · have h16 : p.2 * 16 ≤ q.1 * 16 := mul_le_mul_of_nonneg_right hcase (by norm_num)
    have htr : pyTrunc (p.2 * 16) ≤ pyTrunc (q.1 * 16) := pyTrunc_mono h16
    have hkey : rp.2 ≤ rq.1 := by
      rw [hpe, hqe]
      simp only
      calc min (total : ℤ) (pyTrunc (p.2 * 16)) ≤ pyTrunc (p.2 * 16) := min_le_right _ _
        _ ≤ pyTrunc (q.1 * 16) := htr
        _ ≤ max 0 (pyTrunc (q.1 * 16)) := le_max_right _ _
    exact ⟨hkey, lt_of_lt_of_le hplt hkey⟩
  · exfalso
    have hq21 : q.2 ≤ q.1 := hcase.trans hp1le
    have h16 : q.2 * 16 ≤ q.1 * 16 := mul_le_mul_of_nonneg_right hq21 (by norm_num)
    have htr : pyTrunc (q.2 * 16) ≤ pyTrunc (q.1 * 16) := pyTrunc_mono h16
    have : rq.2 ≤ rq.1 := by
      rw [hqe]
      simp only
      calc min (total : ℤ) (pyTrunc (q.2 * 16)) ≤ pyTrunc (q.2 * 16) := min_le_right _ _
        _ ≤ pyTrunc (q.1 * 16) := htr
        _ ≤ max 0 (pyTrunc (q.1 * 16)) := le_max_right _ _
    omega

theorem msDisjoint_symm : ∀ {p q : ℚ × ℚ}, msDisjoint p q → msDisjoint q p := by
  intro p q h
  unfold msDisjoint at *
  tauto

theorem dedupPairs_sublist : ∀ (l : List (ℚ × ℚ)) (seen : List (ℤ × ℤ)),
    (dedupPairs l seen).Sublist l := by
  intro l
  induction l with
  | nil => intro seen; simp [dedupPairs]
  | cons p rest ih =>
    intro seen
    unfold dedupPairs
    split
    · exact (ih seen).trans (List.sublist_cons_self p rest)
    · exact (ih (vadKey p :: seen)).cons₂ p

theorem dedupPairs_key_not_mem : ∀ (l : List (ℚ × ℚ)) (seen : List (ℤ × ℤ)),
    ∀ p ∈ dedupPairs l seen, vadKey p ∉ seen := by
  intro l
  induction l with
  | nil =>
    intro seen p hp
    simp [dedupPairs] at hp
  | cons q rest ih =>
    intro seen p hp
    unfold dedupPairs at hp
    split at hp
    · exact ih seen p hp
    · rename_i hq
      rcases List.mem_cons.mp hp with h | h
      · subst h
        exact hq
      · intro hmem
        exact ih (vadKey q :: seen) p h (List.mem_cons_of_mem _ hmem)

theorem dedupPairs_pairwise_keys : ∀ (l : List (ℚ × ℚ)) (seen : List (ℤ × ℤ)),
    (dedupPairs l seen).Pairwise (fun a b => vadKey a ≠ vadKey b) := by
  intro l
  induction l with
  | nil =>
    intro seen
    simp [dedupPairs]
  | cons q rest ih =>
    intro seen
    unfold dedupPairs
    split
    · exact ih seen
    · refine List.Pairwise.cons ?_ (ih (vadKey q :: seen))
      intro b hb hbeq
      exact dedupPairs_key_not_mem rest (vadKey q :: seen) b hb
        (by rw [← hbeq]; exact List.mem_cons_self _ _)

theorem splitRanges_eval_overlapping :
    splitRanges 100000 [((0 : ℚ), (200 : ℚ)), (0, 400)] = [(0, 3200), (0, 6400)] := by
  have h1 : vadKey ((0 : ℚ), (200 : ℚ)) = (0, 200) := by
    unfold vadKey pyRound; norm_num
  have h2 : vadKey ((0 : ℚ), (400 : ℚ)) = (0, 400) := by
    unfold vadKey pyRound; norm_num
  have hd : dedupPairs [((0 : ℚ), (200 : ℚ)), (0, 400)] [] =
      [((0 : ℚ), (200 : ℚ)), (0, 400)] := by
    unfold dedupPairs
    rw [h1]
    unfold dedupPairs
    rw [h2]
    simp [dedupPairs]
  have hs : sortPairs [((0 : ℚ), (200 : ℚ)), (0, 400)] = [((0 : ℚ), (200 : ℚ)), (0, 400)] := by
    unfold sortPairs
    simp [List.insertionSort, List.orderedInsert, lexLe]
    norm_num
  have ht1 : toRange 100000 ((0 : ℚ), (200 : ℚ)) = some (0, 3200) := by
    unfold toRange pyTrunc; norm_num
  have ht2 : toRange 100000 ((0 : ℚ), (400 : ℚ)) = some (0, 6400) := by
    unfold toRange pyTrunc; norm_num
  unfold splitRanges
  rw [hd, hs]
  unfold segRanges
  simp [List.filterMap, ht1, ht2]

end VadSeg

/-- C3 (counterexample): the claim quantifies over boundary pairs in any
order with any values; for the overlapping input pairs `(0, 200)` and
`(0, 400)` (milliseconds) on a 100000-sample waveform, both survive the
dedup/sort/clamp/floor stages as sample ranges `[0, 3200)` and `[0, 6400)`,
which overlap and share the start position — so the surviving ranges are
neither pairwise non-overlapping nor strictly increasing in start. -/
theorem segment_invariant_fails_on_overlapping_pairs :
    ¬ (VadSeg.rangesDisjoint (VadSeg.splitRanges 100000 [((0 : ℚ), (200 : ℚ)), (0, 400)]) ∧
       VadSeg.startsStrictMono (VadSeg.splitRanges 100000 [((0 : ℚ), (200 : ℚ)), (0, 400)])) := by
  rw [VadSeg.splitRanges_eval_overlapping]
  intro ⟨_, hs⟩
  unfold VadSeg.startsStrictMono at hs
  simp at hs

/-- C3 (amended): for boundary pairs any two of which are either the very
same pair (a duplicate, in any position) or non-overlapping as millisecond
intervals — which is what a voice-activity backend emits, with duplicates
arising from the recursive output scan — the segments surviving
`split_segments_by_vad`'s deduplication, `(start, end)` sort, sample
conversion, clamping to `[0, total]` and minimum-length filtering have
pairwise non-overlapping sample ranges and strictly increasing start
positions, in output order.  The deduplication stage is what removes the
duplicates: equal pairs share a rounded-millisecond key, and the surviving
pairs have pairwise distinct keys, hence are pairwise non-overlapping. -/
theorem segment_invariant_of_disjoint_pairs (total : ℕ) (pairs : List (ℚ × ℚ))
    (hd : pairs.Pairwise VadSeg.msEqOrDisjoint) :
    VadSeg.rangesDisjoint (VadSeg.splitRanges total pairs) ∧
      VadSeg.startsStrictMono (VadSeg.splitRanges total pairs) := by
  have hd0 : (VadSeg.dedupPairs pairs []).Pairwise VadSeg.msEqOrDisjoint :=
    List.Pairwise.sublist (VadSeg.dedupPairs_sublist pairs []) hd
  have hkeys : (VadSeg.dedupPairs pairs []).Pairwise
      (fun a b => VadSeg.vadKey a ≠ VadSeg.vadKey b) :=
    VadSeg.dedupPairs_pairwise_keys pairs []
  have hd1 : (VadSeg.dedupPairs pairs []).Pairwise VadSeg.msDisjoint :=
    (hd0.and hkeys).imp
      (fun h => h.1.resolve_left (fun he => absurd (congrArg VadSeg.vadKey he) h.2))
  have hperm : (VadSeg.sortPairs (VadSeg.dedupPairs pairs [])).Perm (VadSeg.dedupPairs pairs []) :=
    List.perm_insertionSort VadSeg.lexLe _
  have hd2 : (VadSeg.sortPairs (VadSeg.dedupPairs pairs [])).Pairwise VadSeg.msDisjoint :=
    (hperm.pairwise_iff VadSeg.msDisjoint_symm).mpr hd1
  have hsort : (VadSeg.sortPairs (VadSeg.dedupPairs pairs [])).Pairwise VadSeg.lexLe :=
    List.sorted_insertionSort VadSeg.lexLe _
  have hboth := hsort.and hd2
  have key : (VadSeg.splitRanges total pairs).Pairwise (fun a b => a.2 ≤ b.1 ∧ a.1 < b.1) := by
    unfold VadSeg.splitRanges VadSeg.segRanges
    exact List.Pairwise.filterMap (VadSeg.toRange total)
      (fun p q hpq rp hrp rq hrq => VadSeg.toRange_rel hpq.1 hpq.2 hrp hrq) hboth
  exact ⟨key.imp (fun h => Or.inl h.1), key.imp (fun h => h.2)⟩

/-- C3 (witness): the amended invariant instantiated at the input pairs
`(0, 200)`, `(300, 400)`, `(0, 200)` — out-of-order disjoint boundaries with
an explicit duplicate that only the deduplication stage removes — on a
100000-sample waveform. -/
theorem segment_invariant_of_disjoint_pairs_witness :
    List.Pairwise VadSeg.msEqOrDisjoint [((0 : ℚ), (200 : ℚ)), (300, 400), (0, 200)] ∧
      (VadSeg.rangesDisjoint
          (VadSeg.splitRanges 100000 [((0 : ℚ), (200 : ℚ)), (300, 400), (0, 200)]) ∧
       VadSeg.startsStrictMono
          (VadSeg.splitRanges 100000 [((0 : ℚ), (200 : ℚ)), (300, 400), (0, 200)])) :=
  ⟨by decide, segment_invariant_of_disjoint_pairs 100000 _ (by decide)⟩

theorem findKey_sizeOf_lt {entries : List (String × Py.PyVal)} {k : String} {v : Py.PyVal}
    (h : Py.findKey entries k = some v) : sizeOf v < sizeOf entries := by
  induction entries with
  | nil => simp [Py.findKey] at h
  | cons e tail ih =>
    unfold Py.findKey at h
    split at h
    · obtain ⟨k1, v1⟩ := e
      cases h
      simp
      omega
    · have := ih h
      simp at this ⊢
      omega

theorem normalize_copies_agree_aux (n : ℕ) :
    (∀ v : Py.PyVal, sizeOf v ≤ n →
        AsrServer.normalize_result_text v = Inference.normalize_result_text v) ∧
    (∀ (keys : List String) (entries : List (String × Py.PyVal)), sizeOf entries ≤ n →
        AsrServer.probe_result_keys keys entries = Inference.probe_result_keys keys entries) := by
  induction n with
  | zero =>
    constructor
    · intro v hv
      exact absurd hv (by cases v <;> simp)
    · intro keys entries he
      exact absurd he (by cases entries <;> simp)
  | succ n ih =>
    obtain ⟨ihn, ihp⟩ := ih
    constructor
    · intro v hv
      match v with
      | .pyNone =>
        rw [AsrServer.normalize_result_text.eq_def, Inference.normalize_result_text.eq_def]
      | .pyStr s =>
        rw [AsrServer.normalize_result_text.eq_def, Inference.normalize_result_text.eq_def]
      | .pyInt m =>
        rw [AsrServer.normalize_result_text.eq_def, Inference.normalize_result_text.eq_def]
      | .pyFloat q =>
        rw [AsrServer.normalize_result_text.eq_def, Inference.normalize_result_text.eq_def]
      | .pyBool b =>
        rw [AsrServer.normalize_result_text.eq_def, Inference.normalize_result_text.eq_def]
      | .pyList items =>
        have hmap : items.attach.map (fun x => AsrServer.normalize_result_text x.1)
            = items.attach.map (fun x => Inference.normalize_result_text x.1) := by
          apply List.map_congr_left
          intro x _
          apply ihn
          have h1 := List.sizeOf_lt_of_mem x.2
          have h2 : sizeOf (Py.PyVal.pyList items) ≤ n + 1 := hv
          simp [Py.PyVal.pyList.sizeOf_spec] at h2
          omega
        rw [AsrServer.normalize_result_text.eq_def, Inference.normalize_result_text.eq_def]
        dsimp only
        simp only [hmap]
      | .pyTuple items =>
        have hmap : items.attach.map (fun x => AsrServer.normalize_result_text x.1)
            = items.attach.map (fun x => Inference.normalize_result_text x.1) := by
          apply List.map_congr_left
          intro x _
          apply ihn
          have h1 := List.sizeOf_lt_of_mem x.2
          have h2 : sizeOf (Py.PyVal.pyTuple items) ≤ n + 1 := hv
          simp [Py.PyVal.pyTuple.sizeOf_spec] at h2
          omega
        rw [AsrServer.normalize_result_text.eq_def, Inference.normalize_result_text.eq_def]
        dsimp only
        simp only [hmap]
      | .pyDict entries =>
        rw [AsrServer.normalize_result_text.eq_def, Inference.normalize_result_text.eq_def]
        dsimp only
        apply ihp
        have h2 : sizeOf (Py.PyVal.pyDict entries) ≤ n + 1 := hv
        simp [Py.PyVal.pyDict.sizeOf_spec] at h2
        omega
    · intro keys entries he
      induction keys with
      | nil =>
        rw [AsrServer.probe_result_keys.eq_def, Inference.probe_result_keys.eq_def]
      | cons k rest ihk =>
        rw [AsrServer.probe_result_keys.eq_def, Inference.probe_result_keys.eq_def]
        dsimp only
        cases hfk : Py.findKey entries k with
        | none => exact ihk
        | some v =>
          have hveq : AsrServer.normalize_result_text v = Inference.normalize_result_text v := by
            apply ihn
            have := findKey_sizeOf_lt hfk
            omega
          dsimp only
          rw [hveq]
          split
          · rfl
          · exact ihk

/-- C10: the two copies of the result-normalization function —
`normalize_result_text` in `asr_server.py` (lines 206-232) and
`normalize_result_text` in `inference.py` (lines 94-120) — are extensionally
equal: they return the same string on every value (`None`, scalars,
arbitrarily nested lists/tuples/dicts). -/
theorem normalize_result_text_copies_agree (v : Py.PyVal) :
    AsrServer.normalize_result_text v = Inference.normalize_result_text v :=
  (normalize_copies_agree_aux (sizeOf v)).1 v le_rfl

theorem string_append_ne_empty_of_left {a b : String} (h : a ≠ "") : a ++ b ≠ "" := by
  intro hab
  apply h
  have hl := congrArg String.length hab
  rw [String.length_append] at hl
  have ha : a.length = 0 := by
    have : ("" : String).length = 0 := rfl
    omega
  cases a with
  | mk data =>
    cases data with
    | nil => rfl
    | cons c cs => simp [String.length] at ha

/-- C8: every Dependency Status produced by `inspect_dependency` — for any
dependency descriptor and any filesystem state — satisfies the spec's
invariant: `complete` implies `cached`, and `issue` is a non-empty string
exactly when `complete` is false. -/
theorem inspect_dependency_invariants (fs : ModelCache.FS) (dep : ModelCache.Dep) :
    ((ModelCache.inspect_dependency fs dep).complete = true →
      (ModelCache.inspect_dependency fs dep).cached = true) ∧
    ((ModelCache.inspect_dependency fs dep).issue ≠ "" ↔
      (ModelCache.inspect_dependency fs dep).complete = false) := by
  unfold ModelCache.inspect_dependency
  dsimp only
  split
  all_goals
    split
    · constructor
      · intro h
        exact absurd h (by simp)
      · constructor
        · intro _
          rfl
        · intro _
          exact (by decide : ("模型未下载" : String) ≠ "")
    · rename_i hcached
      split
      · split
        · constructor
          · intro h
            exact absurd h (by simp)
          · constructor
            · intro _
              rfl
            · intro _
              exact string_append_ne_empty_of_left (by decide)
        · constructor
          · intro _
            simpa using hcached
          · constructor
            · intro h
              exact absurd rfl h
            · intro h
              exact absurd h (by simp)
      · constructor
        · intro _
          simpa using hcached
        · constructor
          · intro h
            exact absurd rfl h
          · intro h
            exact absurd h (by simp)

/-- C6 (counterexample): on a filesystem where both `model_eb_quant.onnx`
and `model_eb.onnx` exist, `get_missing_onnx_files` for the contextual
backend with `quantize = true` omits the `"model_eb_quant.onnx|model_eb.onnx"`
entry (the requirement is satisfied), although the claim's "exactly one, not
both" rule says it must not be. -/
theorem contextual_eb_requirement_not_exactly_one :
    ("model_eb_quant.onnx|model_eb.onnx" ∉
        ModelCache.get_missing_onnx_files
          { isdir := fun _ => true, fileExists := fun _ => true, walkHasFiles := fun _ => true }
          "d" "funasr_onnx_contextual" true)
      ∧ ModelCache.FS.fileExists
          { isdir := fun _ => true, fileExists := fun _ => true, walkHasFiles := fun _ => true }
          (ModelCache.pathJoin "d" "model_eb_quant.onnx") = true
      ∧ ModelCache.FS.fileExists
          { isdir := fun _ => true, fileExists := fun _ => true, walkHasFiles := fun _ => true }
          (ModelCache.pathJoin "d" "model_eb.onnx") = true := by
  refine ⟨?_, rfl, rfl⟩
  simp [ModelCache.get_missing_onnx_files]

/-- C6 (amended): for the contextual backend (`funasr_onnx_contextual`) with
`quantize = true`, the secondary-artifact requirement is satisfied — i.e.
`get_missing_onnx_files` omits the `"model_eb_quant.onnx|model_eb.onnx"`
entry — exactly when at least one of `model_eb_quant.onnx` and
`model_eb.onnx` exists in the model directory (an inclusive either/or, also
satisfied when both exist). -/
theorem contextual_eb_requirement_at_least_one (fs : ModelCache.FS) (model_dir : String) :
    ("model_eb_quant.onnx|model_eb.onnx" ∉
        ModelCache.get_missing_onnx_files fs model_dir "funasr_onnx_contextual" true) ↔
      (fs.fileExists (ModelCache.pathJoin model_dir "model_eb_quant.onnx") = true ∨
       fs.fileExists (ModelCache.pathJoin model_dir "model_eb.onnx") = true) := by
  unfold ModelCache.get_missing_onnx_files
  dsimp only
  cases hq : fs.fileExists (ModelCache.pathJoin model_dir "model_quant.onnx") <;>
    cases h1 : fs.fileExists (ModelCache.pathJoin model_dir "model_eb_quant.onnx") <;>
      cases h2 : fs.fileExists (ModelCache.pathJoin model_dir "model_eb.onnx") <;>
        simp [hq, h1, h2]

/-- C1 (code bug): evaluating the legacy `init` handler at a request whose
VAD backend string is unsupported — so `create_vad_model` raises after
`create_asr_model` has already succeeded — the whole `init` aborts with the
raised `RuntimeError`, but the Runtime Model State is NOT the `Uninitialized`
value produced by the reset at the start of `init`: `asr_model` stays
assigned and `asr_backend` / `asr_hotwords_str` keep the request's values. -/
theorem init_vad_failure_leaves_asr_model_assigned :
    Fixtures.initRunVadBogus.2.2.isOk = false
    ∧ Fixtures.initRunVadBogus.1.asr_model.isSome = true
    ∧ Fixtures.initRunVadBogus.1.asr_backend = "funasr_onnx_paraformer"
    ∧ Fixtures.initRunVadBogus.1.asr_hotwords_str = "肉眼所见 20"
    ∧ AsrServer.resetState.asr_model.isSome = false := by
  refine ⟨?_, ?_, ?_, ?_, ?_⟩ <;> rfl

/-- C2 (code bug): in the legacy dispatch loop, a line that is not valid
JSON is handled by an `except` clause that reads the local `msg`; when the
malformed line is the very first line, `msg` is unbound and the loop crashes
with no response at all, and when a previous message (id 7) had been parsed,
the failure response reuses that stale id 7 instead of 0 and carries only
the generic "sidecar 内部异常" error string — no `PARSE_ERROR` code exists. -/
theorem first_malformed_line_crashes_loop :
    (∀ (R : Type) (handler : AsrServer.InMsg → Except Py.PyExc R) (e : Py.PyExc),
      AsrServer.runMain handler none [.badJson e] = ⟨[], true⟩)
    ∧ (∀ (R : Type) (handler : AsrServer.InMsg → Except Py.PyExc R) (e : Py.PyExc),
        (AsrServer.runMain handler (some ⟨some 7⟩) [.badJson e]).sent
            = [.internalFailure 7
                ("sidecar 内部异常: " ++ e.typeName ++ ": " ++ e.message)
                (Protocol.renderTraceback e)]
          ∧ (AsrServer.runMain handler (some ⟨some 7⟩) [.badJson e]).crashed = false) := by
  constructor
  · intro R handler e
    rfl
  · intro R handler e
    constructor <;> rfl

theorem splitWsAux_ne_empty : ∀ (cs acc : List Char), ∀ w ∈ Py.splitWsAux cs acc, w ≠ "" := by
  intro cs
  induction cs with
  | nil =>
    intro acc w hw
    unfold Py.splitWsAux at hw
    split at hw
    · simp at hw
    · rename_i hacc
      simp at hw
      subst hw
      simp [String.ext_iff]
      simpa using hacc
  | cons c rest ih =>
    intro acc w hw
    unfold Py.splitWsAux at hw
    split at hw
    · split at hw
      · exact ih [] w hw
      · rename_i hacc
        rcases List.mem_cons.mp hw with h | h
        · subst h
          simp [String.ext_iff]
          simpa using hacc
        · exact ih [] w h
    · exact ih (c :: acc) w hw

theorem pySplitWs_ne_empty (s : String) : ∀ w ∈ Py.pySplitWs s, w ≠ "" :=
  splitWsAux_ne_empty s.data []

theorem pyJoinSpace_ne_empty : ∀ (w : String) (ws : List String), w ≠ "" →
    Py.pyJoinSpace (w :: ws) ≠ "" := by
  intro w ws hw
  cases ws with
  | nil => exact hw
  | cons x rest =>
    unfold Py.pyJoinSpace
    exact string_append_ne_empty_of_left (string_append_ne_empty_of_left hw)

theorem hotwordFirstTokenLoop_ne_empty :
    ∀ (lines words : List String), (∀ w ∈ words, w ≠ "") →
      ∀ w ∈ AsrServer.hotwordFirstTokenLoop lines words, w ≠ "" := by
  intro lines
  induction lines with
  | nil =>
    intro words hwords w hw
    exact hwords w hw
  | cons line rest ih =>
    intro words hwords w hw
    unfold AsrServer.hotwordFirstTokenLoop at hw
    cases hsp : Py.pySplitWs (Py.pyStrip line) with
    | nil =>
      rw [hsp] at hw
      exact ih words hwords w hw
    | cons tok toks =>
      rw [hsp] at hw
      dsimp only at hw
      by_cases hmem : tok ∈ words
      · rw [if_pos hmem] at hw
        exact ih words hwords w hw
      · rw [if_neg hmem] at hw
        refine ih (words ++ [tok]) ?_ w hw
        intro u hu
        rcases List.mem_append.mp hu with h | h
        · exact hwords u h
        · simp at h
          subst h
          exact pySplitWs_ne_empty _ u (by rw [hsp]; exact List.mem_cons_self _ _)

theorem hotwordFallbackLoop_ne_empty :
    ∀ (toks words : List String), (∀ w ∈ words, w ≠ "") →
      ∀ w ∈ AsrServer.hotwordFallbackLoop toks words, w ≠ "" := by
  intro toks
  induction toks with
  | nil => intro words hwords w hw; exact hwords w hw
  | cons t rest ih =>
    intro words hwords w hw
    unfold AsrServer.hotwordFallbackLoop at hw
    by_cases hcond : t ≠ "" ∧ t ∉ words
    · rw [if_pos hcond] at hw
      refine ih (words ++ [t]) ?_ w hw
      intro u hu
      rcases List.mem_append.mp hu with h | h
      · exact hwords u h
      · simp at h
        subst h
        exact hcond.1
    · rw [if_neg hcond] at hw
      exact ih words hwords w hw

theorem addWords_ne_empty :
    ∀ (toks words : List String), (∀ w ∈ words, w ≠ "") →
      ∀ w ∈ Inference.addWords toks words, w ≠ "" := by
  intro toks
  induction toks with
  | nil => intro words hwords w hw; exact hwords w hw
  | cons t rest ih =>
    intro words hwords w hw
    unfold Inference.addWords at hw
    by_cases hcond : t ≠ "" ∧ t ∉ words
    · rw [if_pos hcond] at hw
      refine ih (words ++ [t]) ?_ w hw
      intro u hu
      rcases List.mem_append.mp hu with h | h
      · exact hwords u h
      · simp at h
        subst h
        exact hcond.1
    · rw [if_neg hcond] at hw
      exact ih words hwords w hw

theorem extractLines_ne_empty :
    ∀ (lines words : List String), (∀ w ∈ words, w ≠ "") →
      ∀ w ∈ Inference.extractLines lines words, w ≠ "" := by
  intro lines
  induction lines with
  | nil => intro words hwords w hw; exact hwords w hw
  | cons line rest ih =>
    intro words hwords w hw
    unfold Inference.extractLines at hw
    exact ih _ (addWords_ne_empty _ words hwords) w hw

theorem placeholderStep_ne_empty (words : List String) (hall : ∀ w ∈ words, w ≠ "") :
    Py.pyJoinSpace (if words = [] then words ++ ["。"] else words) ≠ "" := by
  rcases words with _ | ⟨w, ws⟩
  · rw [if_pos rfl]
    exact pyJoinSpace_ne_empty "。" [] (by decide)
  · rw [if_neg (by simp)]
    exact pyJoinSpace_ne_empty w ws (hall w (List.mem_cons_self _ _))

theorem asr_normalize_hotwords_ne_empty (s : String) :
    AsrServer.normalize_hotwords_for_onnx s ≠ "" := by
  unfold AsrServer.normalize_hotwords_for_onnx
  dsimp only
  apply placeholderStep_ne_empty
  intro w hw
  split at hw
  · exact hotwordFallbackLoop_ne_empty _ _
      (hotwordFirstTokenLoop_ne_empty _ [] (by simp)) w hw
  · exact hotwordFirstTokenLoop_ne_empty _ [] (by simp) w hw

theorem inf_normalize_hotwords_ne_empty (s : String) :
    Inference.normalize_hotwords_for_onnx s ≠ "" := by
  unfold Inference.normalize_hotwords_for_onnx Inference.extract_hotwords
  dsimp only
  apply placeholderStep_ne_empty
  intro w hw
  split at hw
  · exact addWords_ne_empty _ _
      (extractLines_ne_empty _ [] (by simp)) w hw
  · exact extractLines_ne_empty _ [] (by simp) w hw

/-- C9 (counterexample): the claim's "first whitespace-delimited token of
each line" rule fails on the `inference.py` copy: for the raw string
`"alpha beta"` (second token not a numeric weight) it keeps the whole line's
tokens, normalizing to `"alpha beta"` rather than `"alpha"`. -/
theorem hotword_first_token_rule_fails_inference_copy :
    Inference.normalize_hotwords_for_onnx "alpha beta" = "alpha beta"
    ∧ Inference.normalize_hotwords_for_onnx "alpha beta" ≠ "alpha" := by
  constructor <;> decide

/-- C9 (amended): the two hotword normalizers drop duplicates, preserve
first-occurrence order and never produce an empty string (an empty or
all-whitespace raw string yields the single placeholder token `"。"`), and
the spec's example normalizes to `["肉眼所见", "鳞状上皮"]` in both; but only
the `asr_server.py` copy takes the first whitespace-delimited token of every
line unconditionally — the `inference.py` copy takes the first token only
for lines whose second token is a numeric weight (digits with at most one
dot) and otherwise keeps every token of the line. -/
theorem hotword_normalization_amended :
    AsrServer.normalize_hotwords_for_onnx "肉眼所见 20\n鳞状上皮 20" = "肉眼所见 鳞状上皮"
    ∧ Inference.normalize_hotwords_for_onnx "肉眼所见 20\n鳞状上皮 20" = "肉眼所见 鳞状上皮"
    ∧ AsrServer.normalize_hotwords_for_onnx "" = "。"
    ∧ Inference.normalize_hotwords_for_onnx "" = "。"
    ∧ AsrServer.normalize_hotwords_for_onnx " \n " = "。"
    ∧ Inference.normalize_hotwords_for_onnx " \n " = "。"
    ∧ AsrServer.normalize_hotwords_for_onnx "a 20\na 30" = "a"
    ∧ Inference.normalize_hotwords_for_onnx "a 20\na 30" = "a"
    ∧ AsrServer.normalize_hotwords_for_onnx "alpha beta" = "alpha"
    ∧ Inference.normalize_hotwords_for_onnx "alpha beta" = "alpha beta"
    ∧ (∀ t0 t1 rest, Inference.token_iter_for_line (t0 :: t1 :: rest)
        = if Py.isPyDigit (Py.removeFirstDot t1) then [t0] else t0 :: t1 :: rest)
    ∧ (∀ s, AsrServer.normalize_hotwords_for_onnx s ≠ "")
    ∧ (∀ s, Inference.normalize_hotwords_for_onnx s ≠ "") := by
  refine ⟨by decide, by decide, by decide, by decide, by decide, by decide, by decide,
    by decide, by decide, by decide, fun t0 t1 rest => rfl,
    asr_normalize_hotwords_ne_empty, inf_normalize_hotwords_ne_empty⟩

theorem string_append_ne_empty_of_right {a b : String} (h : b ≠ "") : a ++ b ≠ "" := by
  intro hab
  apply h
  have hl := congrArg String.length hab
  rw [String.length_append] at hl
  have hb : b.length = 0 := by
    have : ("" : String).length = 0 := rfl
    omega
  cases b with
  | mk data =>
    cases data with
    | nil => rfl
    | cons c cs => simp [String.length] at hb

theorem renderTraceback_ne_empty (e : Py.PyExc) : Protocol.renderTraceback e ≠ "" := by
  cases e <;>
  · unfold Protocol.renderTraceback
    exact string_append_ne_empty_of_left (string_append_ne_empty_of_right (by decide))

/-- C5: for every `init` request during which the downloader collaborator
raises for some dependency — i.e. the embedded
`model_cache.download_model_with_progress` aborts with exception `ex` — the
modelled `init` handler returns the aborted outcome: a terminal failure
response with `ok: false`, code `MODEL_DOWNLOAD_FAILED`, and the formatted
traceback of `ex` as `details` (which embeds the original cause's rendering,
since the raised exception chains it with `from e`); `init` never proceeds
to the model-loading phase. -/
theorem init_download_failure_aborts_with_code
    (fs : ModelCache.FS) (snapshot : String → Except Py.PyExc String)
    (deps : List ModelCache.Dep) (msg_id : Int) (ex : Py.PyExc)
    (h : (ModelCache.download_model_with_progress fs snapshot deps msg_id).2
        = Except.error ex) :
    (∃ resp sent, SpecServer.initDownloadPhase fs snapshot deps msg_id = .aborted resp sent
        ∧ resp.ok = false
        ∧ resp.error.code = "MODEL_DOWNLOAD_FAILED"
        ∧ resp.error.details = some (Protocol.renderTraceback ex)
        ∧ ∀ t m c, ex = .causedBy t m c →
            ∃ tail, Protocol.renderTraceback ex = Protocol.renderTraceback c ++ tail)
    ∧ (∀ sent2, SpecServer.initDownloadPhase fs snapshot deps msg_id ≠ .proceedToLoading sent2) := by
  have hstep : SpecServer.initDownloadPhase fs snapshot deps msg_id
      = .aborted (Protocol.error_from_exception msg_id "MODEL_DOWNLOAD_FAILED"
            "模型下载失败" "download" ex none)
          (ModelCache.download_model_with_progress fs snapshot deps msg_id).1 := by
    unfold SpecServer.initDownloadPhase
    rcases hp : ModelCache.download_model_with_progress fs snapshot deps msg_id with ⟨msgs, res⟩
    rw [hp] at h
    dsimp only at h ⊢
    subst h
    rfl
  constructor
  · refine ⟨_, _, hstep, rfl, rfl, ?_, ?_⟩
    · show (if Protocol.renderTraceback ex ≠ "" then some (Protocol.renderTraceback ex)
          else none) = some (Protocol.renderTraceback ex)
      rw [if_pos (renderTraceback_ne_empty ex)]
    · intro t m c hc
      subst hc
      refine ⟨"\nThe above exception was the direct cause of the following exception:\n"
          ++ t ++ (": " ++ m), ?_⟩
      have hr : Protocol.renderTraceback (Py.PyExc.causedBy t m c)
          = Protocol.renderTraceback c
            ++ "\nThe above exception was the direct cause of the following exception:\n"
            ++ t ++ ": " ++ m := rfl
      rw [hr]
      simp [String.append_assoc]
  · intro sent2 hc
    rw [hstep] at hc
    exact SpecServer.InitDownloadOutcome.noConfusion hc

/-- C5 (witness): a single uncached ASR dependency and an offline downloader:
the download phase raises the wrapped `RuntimeError` and the modelled `init`
handler aborts with the `MODEL_DOWNLOAD_FAILED` envelope. -/
theorem init_download_failure_aborts_with_code_witness :
    ((ModelCache.download_model_with_progress Fixtures.emptyFS Fixtures.offlineSnapshot
          [{ role := "ASR", modelName := "m", backend := "funasr_torch", quantize := false }] 3).2
        = Except.error (.causedBy "RuntimeError" "预下载 ASR 模型失败: m" (.base "HTTPError" "offline")))
    ∧ ((∃ resp sent, SpecServer.initDownloadPhase Fixtures.emptyFS Fixtures.offlineSnapshot
            [{ role := "ASR", modelName := "m", backend := "funasr_torch", quantize := false }] 3
            = .aborted resp sent
          ∧ resp.ok = false
          ∧ resp.error.code = "MODEL_DOWNLOAD_FAILED"
          ∧ resp.error.details = some (Protocol.renderTraceback
              (.causedBy "RuntimeError" "预下载 ASR 模型失败: m" (.base "HTTPError" "offline")))
          ∧ ∀ t m c, (Py.PyExc.causedBy "RuntimeError" "预下载 ASR 模型失败: m"
                (.base "HTTPError" "offline")) = .causedBy t m c →
              ∃ tail, Protocol.renderTraceback (Py.PyExc.causedBy "RuntimeError"
                  "预下载 ASR 模型失败: m" (.base "HTTPError" "offline"))
                = Protocol.renderTraceback c ++ tail)
        ∧ (∀ sent2, SpecServer.initDownloadPhase Fixtures.emptyFS Fixtures.offlineSnapshot
            [{ role := "ASR", modelName := "m", backend := "funasr_torch", quantize := false }] 3
            ≠ .proceedToLoading sent2)) := by
  have hdl : (ModelCache.download_model_with_progress Fixtures.emptyFS Fixtures.offlineSnapshot
        [{ role := "ASR", modelName := "m", backend := "funasr_torch", quantize := false }] 3).2
      = Except.error (.causedBy "RuntimeError" "预下载 ASR 模型失败: m" (.base "HTTPError" "offline")) := by
    rfl
  exact ⟨hdl, init_download_failure_aborts_with_code _ _ _ _ _ hdl⟩

/-- C4: for every `recognize` request whose decoded waveform is empty, the
modelled handler over the embedded `inference.py` runtime returns the
successful terminal response `text:"", rawText:"", segmentCount:0,
asrPasses:0`, and neither the VAD backend nor the ASR backend is invoked
(both invocation flags are false): the empty-waveform guards of
`inference.split_segments_by_vad` and `inference.run_asr_once` return before
any backend call. -/
theorem recognize_empty_waveform_response
    (st : Inference.RuntimeState) (msg_id : Int) (wav_bytes : List ℕ)
    (h : Inference.decode_wav wav_bytes = .ok []) :
    SpecServer.recognizeHandler st msg_id wav_bytes
      = (.success msg_id "" "" 0 0, false, false) := by
  unfold SpecServer.recognizeHandler
  rw [h]
  dsimp only
  have hsplit : Inference.split_segments_by_vad st.vad_model ([] : List ℚ) = (.ok [], false) := by
    unfold Inference.split_segments_by_vad
    rw [if_pos rfl]
  rw [hsplit]
  dsimp only
  unfold SpecServer.recognizeCore
  have hmerge : SpecServer.mergeForRecognition [] ([] : List ℚ) = [] := rfl
  rw [hmerge]
  dsimp only
  have hasr : Inference.run_asr_once st ([] : List ℚ) = (.ok "", false) := by
    unfold Inference.run_asr_once
    rw [if_pos rfl]
  rw [hasr]
  dsimp only
  have hpunc : Inference.run_punc st.punc_model (Py.pyStrip "") = (.ok "", false) := by
    unfold Inference.run_punc
    rw [if_pos (show Py.pyStrip "" = "" ∨ Py.pyStrip (Py.pyStrip "") = "" from Or.inl rfl)]
  rw [hpunc]
  rfl

/-- C4 (witness): the modelled handler evaluated on an empty payload against
a state whose three backends are all present and live. -/
theorem recognize_empty_waveform_response_witness :
    Inference.decode_wav [] = .ok []
    ∧ SpecServer.recognizeHandler Fixtures.liveInferenceState 9 []
        = (.success 9 "" "" 0 0, false, false) :=
  ⟨rfl, recognize_empty_waveform_response Fixtures.liveInferenceState 9 [] rfl⟩

/-- C7: in the legacy server, for every `recognize` request on a non-empty
decoded waveform whose configured VAD backend raises, the failure is
recovered locally inside `split_segments_by_vad` (the whole waveform becomes
the single segment), recognition proceeds over that undivided waveform, and
the terminal response is the success dict — which carries no error field at
all — whenever the ASR stage succeeds. -/
theorem vad_failure_recovered_whole_waveform
    (st : AsrServer.RuntimeState) (msg_id : Int) (wav_bytes : List ℕ)
    (samples : List ℚ) (asr : Py.AsrModel) (vad : Py.VadModel) (e : Py.PyExc) (raw : String)
    (hasrm : st.asr_model = some asr)
    (hdec : AsrServer.decode_wav wav_bytes = .ok samples)
    (hne : samples ≠ [])
    (hvad : st.vad_model = some vad)
    (hraise : vad samples = .error e)
    (hrun : AsrServer.run_asr_once st samples = (.ok raw, true)) :
    AsrServer.handle_recognize st msg_id wav_bytes
      = (.ok (.success msg_id (AsrServer.run_punc st.punc_model (Py.pyStrip raw))
          (Py.pyStrip raw) 1 1), true, true) := by
  unfold AsrServer.handle_recognize
  rw [hasrm]
  dsimp only
  rw [hdec]
  dsimp only
  have hsplit : AsrServer.split_segments_by_vad st.vad_model samples = ([samples], true) := by
    unfold AsrServer.split_segments_by_vad
    rw [hvad]
    dsimp only
    rw [hraise]
  rw [hsplit]
  dsimp only
  rw [if_pos (show ([samples] : List (List ℚ)).length ≤ 1 by simp)]
  rw [hrun]
  rfl

/-- C7 (witness): a one-sample waveform, a VAD backend that raises, and a
paraformer ASR backend that recognizes `"哈喽"`: the response is the
success dict over the whole waveform. -/
theorem vad_failure_recovered_whole_waveform_witness :
    Fixtures.vadRaisingState.asr_model.isSome = true
    ∧ AsrServer.decode_wav Fixtures.oneSampleWav = .ok [0]
    ∧ ([(0 : ℚ)] ≠ [])
    ∧ Fixtures.vadRaisingState.vad_model.isSome = true
    ∧ AsrServer.run_asr_once Fixtures.vadRaisingState [0] = (.ok "哈喽", true)
    ∧ AsrServer.handle_recognize Fixtures.vadRaisingState 5 Fixtures.oneSampleWav
        = (.ok (.success 5
            (AsrServer.run_punc Fixtures.vadRaisingState.punc_model (Py.pyStrip "哈喽"))
            (Py.pyStrip "哈喽") 1 1), true, true) := by
  have hdec : AsrServer.decode_wav Fixtures.oneSampleWav = .ok [0] := by
    unfold AsrServer.decode_wav Fixtures.oneSampleWav
    have hdrop : (List.replicate 44 (0 : ℕ) ++ [0, 0]).drop 44 = [0, 0] := by
      rw [show (44 : ℕ) = (List.replicate 44 (0 : ℕ)).length from (by simp)]
      exact List.drop_left _ _
    rw [hdrop]
    norm_num [Py.bytePairsToInt16]
  have hrun : AsrServer.run_asr_once Fixtures.vadRaisingState [0] = (.ok "哈喽", true) := by
    unfold AsrServer.run_asr_once Fixtures.vadRaisingState
    dsimp only
    rw [if_neg (by decide), if_pos rfl]
    dsimp only
    simp [AsrServer.normalize_result_text]
  refine ⟨rfl, hdec, by decide, rfl, hrun, ?_⟩
  exact vad_failure_recovered_whole_waveform Fixtures.vadRaisingState 5 Fixtures.oneSampleWav
    [0] _ _ (.base "RuntimeError" "onnx session failed") "哈喽" rfl hdec (by decide) rfl rfl hrun
